import Mathlib

/-!
Verification of the sketch2play scene and build-manifest core.

Shallow embedding of `src/lib/scene.js`, `src/lib/canvas.js`,
`src/lib/generator.js` and `src/lib/characterExtraction.js`.

JavaScript numbers are modelled as rationals (`ℚ`) in the scene builder and
as integers (`ℤ`) in the design-to-scene compiler (whose inputs are pixel
coordinates); an absent (`undefined`) field is modelled with `Option`.
-/

namespace SceneLib

/-- The `clamp` from `src/lib/canvas.js`: `Math.max(min, Math.min(max, n))`. -/
def clamp (n lo hi : ℚ) : ℚ := max lo (min hi n)

/-- JavaScript `s || d` for a string `s`: the empty string is falsy. -/
def jsOrStr (s d : String) : String := if s = "" then d else s

/-- JavaScript `x || d` for an optional number `x` (`undefined` and `0` are falsy). -/
def jsOrNum (x : Option ℚ) (d : ℚ) : ℚ :=
  match x with
  | none => d
  | some v => if v = 0 then d else v

structure NumRange where
  min : ℚ
  max : ℚ
deriving DecidableEq, Repr

structure Constraints where
  bgMaxMB : ℚ
  spriteMaxMB : ℚ
  maxCharacters : Nat
  canvasMaxW : ℚ
  canvasMaxH : ℚ
  gravity : NumRange
  moveSpeed : NumRange
  jumpVelocity : NumRange
  projectileSpeed : NumRange
  cooldownMs : NumRange
deriving DecidableEq, Repr

/-- The `CONSTRAINTS` from `src/lib/scene.js`. -/
def CONSTRAINTS : Constraints where
  bgMaxMB := 1.5
  spriteMaxMB := 1
  maxCharacters := 3
  canvasMaxW := 1280
  canvasMaxH := 720
  gravity := ⟨100, 3000⟩
  moveSpeed := ⟨50, 800⟩
  jumpVelocity := ⟨100, 1500⟩
  projectileSpeed := ⟨100, 2000⟩
  cooldownMs := ⟨80, 2000⟩

structure Controls where
  arrows : Bool
  spaceJump : Bool
  resetKey : String
  shootKey : String
deriving DecidableEq, Repr

structure World where
  width : ℚ
  height : ℚ
  gravity : ℚ
deriving DecidableEq, Repr

/-- The `DEFAULTS.world` from `src/lib/scene.js`. -/
def DEFAULTS_world : World := ⟨1280, 720, 1400⟩

/-- The `DEFAULTS.controls` from `src/lib/scene.js`. -/
def DEFAULTS_controls : Controls := ⟨true, true, "R", "X"⟩

/-- Output collider record built by `toScene`. -/
structure Collider where
  w : ℚ
  h : ℚ
  offsetX : ℚ
  offsetY : ℚ
deriving DecidableEq, Repr

structure Shoot where
  projectileSpeed : ℚ
  cooldownMs : ℚ
deriving DecidableEq, Repr

/-- Output abilities record: the boolean flags are present only when the input
had them as booleans; `moveSpeed`/`jumpVelocity` are always present. -/
structure Abilities where
  jump : Option Bool
  slide : Option Bool
  punch : Option Bool
  moveSpeed : ℚ
  jumpVelocity : ℚ
  shoot : Option Shoot
deriving DecidableEq, Repr

structure Spawn where
  x : ℚ
  y : ℚ
deriving DecidableEq, Repr

structure Character where
  id : String
  name : String
  imageUrl : String
  collider : Option Collider
  abilities : Abilities
  spawn : Spawn
deriving DecidableEq, Repr

structure Platform where
  x : ℚ
  y : ℚ
  w : ℚ
  h : ℚ
deriving DecidableEq, Repr

structure Target where
  x : ℚ
  y : ℚ
  w : ℚ
  h : ℚ
  ttype : String
deriving DecidableEq, Repr

structure Background where
  imageUrl : Option String
  fit : String
deriving DecidableEq, Repr

/-- The compiled Scene document (the `SCENE` contract of `scene.js`). -/
structure Scene where
  world : World
  background : Background
  platforms : List Platform
  targets : List Target
  characters : List Character
  controls : Controls
deriving DecidableEq, Repr

/-- Input collider: `offsetX`/`offsetY` may be absent (`c.collider.offsetX || 0`). -/
structure ColliderIn where
  w : ℚ
  h : ℚ
  offsetX : Option ℚ
  offsetY : Option ℚ
deriving DecidableEq, Repr

structure ShootIn where
  projectileSpeed : ℚ
  cooldownMs : ℚ
deriving DecidableEq, Repr

/-- Input abilities; `none` for a flag means the field is absent or not a
boolean (the source guards with `typeof ... === "boolean"`).  An absent
`c.abilities` object behaves like a record of all-`none` fields, because every
access in the source goes through `c.abilities?.`. -/
structure AbilitiesIn where
  jump : Option Bool
  slide : Option Bool
  punch : Option Bool
  moveSpeed : Option ℚ
  jumpVelocity : Option ℚ
  shoot : Option ShootIn
deriving DecidableEq, Repr

/-- Input character for `toScene`; `id`/`name`/`imageUrl` model the absent
string as `""` (both are falsy under `||` and `imageUrl` is passed through). -/
structure CharIn where
  id : String
  name : String
  imageUrl : String
  collider : Option ColliderIn
  abilities : AbilitiesIn
  spawnX : Option ℚ
  spawnY : Option ℚ
deriving DecidableEq, Repr

/-- Input background; `targets` models the legacy `background?.targets` payload. -/
structure BackgroundIn where
  imageUrl : Option String
  fit : String
  targets : Option (List Target)
deriving DecidableEq, Repr

/-- Input world partial (`world = {}` default in the source signature). -/
structure WorldIn where
  width : Option ℚ
  height : Option ℚ
  gravity : Option ℚ
deriving DecidableEq, Repr

/-- The destructured argument of `toScene({characters, platforms, background, world, controls})`. -/
structure ToSceneInput where
  characters : List CharIn
  platforms : List Platform
  background : Option BackgroundIn
  world : WorldIn
  controls : Option Controls
deriving DecidableEq, Repr

/-- The `list.map((c, i) => f i c)` with explicit start index. -/
def mapIdxFrom (f : Nat → α → β) : Nat → List α → List β
  | _, [] => []
  | n, a :: as => f n a :: mapIdxFrom f (n + 1) as

/-- The per-character body of the `.map` inside `toScene`. -/
def toChar (W H : ℚ) (i : Nat) (c : CharIn) : Character where
  id := jsOrStr c.id ("char-" ++ toString (i + 1))
  name := jsOrStr c.name "Hero"
  imageUrl := c.imageUrl
  collider := c.collider.map fun col =>
    { w := clamp col.w 8 256
      h := clamp col.h 8 256
      offsetX := col.offsetX.getD 0
      offsetY := col.offsetY.getD 0 }
  abilities :=
    { jump := c.abilities.jump
      slide := c.abilities.slide
      punch := c.abilities.punch
      moveSpeed := clamp (c.abilities.moveSpeed.getD 180)
        CONSTRAINTS.moveSpeed.min CONSTRAINTS.moveSpeed.max
      jumpVelocity := clamp (c.abilities.jumpVelocity.getD 420)
        CONSTRAINTS.jumpVelocity.min CONSTRAINTS.jumpVelocity.max
      shoot := c.abilities.shoot.map fun s =>
        { projectileSpeed := clamp s.projectileSpeed
            CONSTRAINTS.projectileSpeed.min CONSTRAINTS.projectileSpeed.max
          cooldownMs := clamp s.cooldownMs
            CONSTRAINTS.cooldownMs.min CONSTRAINTS.cooldownMs.max } }
  spawn :=
    { x := clamp (c.spawnX.getD 100) 0 W
      y := clamp (c.spawnY.getD (H - 200)) 0 H }

/-- The `toScene` from `src/lib/scene.js`. -/
def toScene (inp : ToSceneInput) : Scene :=
  let W := inp.world.width.getD DEFAULTS_world.width
  let H := inp.world.height.getD DEFAULTS_world.height
  { world :=
      { width := W
        height := H
        gravity := clamp (inp.world.gravity.getD DEFAULTS_world.gravity)
          CONSTRAINTS.gravity.min CONSTRAINTS.gravity.max }
    background :=
      { imageUrl := inp.background.bind (fun b => b.imageUrl)
        fit :=
          match inp.background with
          | some b => jsOrStr b.fit "cover"
          | none => "cover" }
    platforms := inp.platforms.map fun p => { x := p.x, y := p.y, w := p.w, h := p.h }
    targets := (inp.background.bind (fun b => b.targets)).getD []
    characters := mapIdxFrom (toChar W H) 0 (inp.characters.take CONSTRAINTS.maxCharacters)
    controls := inp.controls.getD DEFAULTS_controls }

/-- JavaScript `s.startsWith(p)`, modelled on the underlying character list. -/
def jsStartsWith (s p : String) : Bool := p.data.isPrefixOf s.data

/-- JavaScript `s.split(",")` on the underlying character list. -/
def splitComma : List Char → List (List Char)
  | [] => [[]]
  | c :: rest =>
    if c = ',' then [] :: splitComma rest
    else
      match splitComma rest with
      | [] => [[c]]
      | p :: ps => (c :: p) :: ps

/-- The `dataUriBytes` from `src/lib/scene.js`: `Math.floor(base64.length * 3 / 4)`
where `base64` is `dataUri.split(",")[1] || ""`. -/
def dataUriBytes (dataUri : String) : Nat :=
  ((splitComma dataUri.data).getD 1 []).length * 3 / 4

/-- JavaScript `(n / (1024*1024)).toFixed(2)` for a byte count `n`.  The double
`n / 2^20` is exact for these magnitudes, and `toFixed` then picks the integer
`h` with `h / 100` closest to it, preferring the larger `h` on ties. -/
def toFixed2MB (n : Nat) : String :=
  let h := (n * 100 + 524288) / 1048576
  toString (h / 100) ++ "." ++
    (if h % 100 < 10 then "0" ++ toString (h % 100) else toString (h % 100))

/-- The destructured argument of `validateAssets({background, characters})`. -/
structure AssetsIn where
  background : Option BackgroundIn
  characters : List CharIn
deriving DecidableEq, Repr

/-- The background size check of `validateAssets`.  The limit string `"1.5"`
is the JavaScript rendering of `CONSTRAINTS.bgMaxMB = 1.5` in the template
literal. -/
def bgSizeErr (bg : Option BackgroundIn) : List String :=
  match bg.bind (fun b => b.imageUrl) with
  | some u =>
    if jsStartsWith u "data:" then
      let sz := dataUriBytes u
      if (sz : ℚ) > CONSTRAINTS.bgMaxMB * 1024 * 1024 then
        ["Background " ++ (toFixed2MB sz ++ " MB exceeds limit 1.5 MB")]
      else []
    else []
  | none => []

/-- The per-character sprite size check of `validateAssets` (`"1"` renders
`CONSTRAINTS.spriteMaxMB = 1.0`). -/
def charSizeErr (i : Nat) (c : CharIn) : List String :=
  if jsStartsWith c.imageUrl "data:" then
    let sz := dataUriBytes c.imageUrl
    if (sz : ℚ) > CONSTRAINTS.spriteMaxMB * 1024 * 1024 then
      ["Character #" ++ (toString (i + 1) ++ (" " ++
        (toFixed2MB sz ++ " MB exceeds limit 1 MB")))]
    else []
  else []

/-- The character count check of `validateAssets`. -/
def countErr (cs : List CharIn) : List String :=
  if cs.length > CONSTRAINTS.maxCharacters then
    ["Too many characters: " ++ (toString cs.length ++ (" (max " ++
      (toString CONSTRAINTS.maxCharacters ++ ")")))]
  else []

/-- The `validateAssets` from `src/lib/scene.js`: the violations pushed by the
background check, the per-character checks (in order) and the count check. -/
def validateAssets (a : AssetsIn) : List String :=
  bgSizeErr a.background ++ (mapIdxFrom charSizeErr 0 a.characters).flatten
    ++ countErr a.characters

end SceneLib

namespace Gen

/-- JavaScript `x || d` for an optional integer; `undefined`, `NaN` and `0`
are falsy (`undefined` and `NaN` are both modelled as `none`). -/
def jsOrInt (x : Option Int) (d : Int) : Int :=
  match x with
  | none => d
  | some v => if v = 0 then d else v

/-- JavaScript `s || d` for an optional string; `undefined` and `""` are falsy. -/
def jsOrStr (s : Option String) (d : String) : String :=
  match s with
  | none => d
  | some v => if v = "" then d else v

/-- NaN-propagating subtraction on possibly-undefined operands. -/
def jsSub (a b : Option Int) : Option Int :=
  match a, b with
  | some a, some b => some (a - b)
  | _, _ => none

/-- The `Math.abs`, propagating NaN. -/
def jsAbs (a : Option Int) : Option Int := a.map (fun v => |v|)

/-- The `Math.min`, propagating NaN. -/
def jsMin (a b : Option Int) : Option Int :=
  match a, b with
  | some a, some b => some (min a b)
  | _, _ => none

structure GCollider where
  w : Int
  h : Int
  offsetX : Int
  offsetY : Int
deriving DecidableEq, Repr

/-- The entity `props` payload, restricted to the keys the generator reads. -/
structure PropsIn where
  moveSpeed : Option Int
  jumpVelocity : Option Int
  imageUrl : Option String
  collider : Option GCollider
deriving DecidableEq, Repr

/-- A design-document entity (`{type, shape?, x, y, x2?, y2?, w?, h?, id?, label?, props?}`). -/
structure Entity where
  etype : Option String
  shape : Option String
  x : Option Int
  y : Option Int
  x2 : Option Int
  y2 : Option Int
  w : Option Int
  h : Option Int
  id : Option String
  label : Option String
  props : Option PropsIn
deriving DecidableEq, Repr

structure Canvas where
  width : Option Int
  height : Option Int
deriving DecidableEq, Repr

/-- The DesignJSON input of `ensureScene`. -/
structure Design where
  canvas : Option Canvas
  entities : List Entity
deriving DecidableEq, Repr

structure GWorld where
  width : Int
  height : Int
  gravity : Int
deriving DecidableEq, Repr

structure GBackground where
  imageUrl : String
  fit : String
deriving DecidableEq, Repr

/-- Platform pushed by `ensureScene`; `x`/`y` are `Option` because the rect
branch does not check them (`undefined` flows through). -/
structure GPlatform where
  x : Option Int
  y : Option Int
  w : Int
  h : Int
deriving DecidableEq, Repr

structure GTarget where
  x : Option Int
  y : Option Int
  w : Int
  h : Int
  ttype : String
  props : Option PropsIn
deriving DecidableEq, Repr

/-- Abilities built by `Object.assign({moveSpeed:180, jumpVelocity:420}, e.props || {})`:
present props keys override the two defaults, and the other modelled props
keys are copied in alongside. -/
structure GAbilities where
  moveSpeed : Int
  jumpVelocity : Int
  imageUrl : Option String
  collider : Option GCollider
deriving DecidableEq, Repr

structure GSpawn where
  x : Int
  y : Int
deriving DecidableEq, Repr

structure GCharacter where
  id : String
  name : String
  imageUrl : String
  collider : GCollider
  abilities : GAbilities
  spawn : GSpawn
deriving DecidableEq, Repr

structure GControls where
  arrows : Bool
  spaceJump : Bool
  resetKey : String
  shootKey : String
deriving DecidableEq, Repr

structure GScene where
  world : GWorld
  background : GBackground
  platforms : List GPlatform
  targets : List GTarget
  characters : List GCharacter
  controls : GControls
deriving DecidableEq, Repr

/-- The `platform` branch of the entity loop in `ensureScene`. -/
def entPlatform (e : Entity) : Option GPlatform :=
  if e.etype = some "platform" then
    if e.shape = some "rect" ∧ e.w.isSome ∧ e.h.isSome then
      some { x := e.x, y := e.y, w := e.w.getD 0, h := e.h.getD 0 }
    else if e.shape = some "line" ∧ e.x2.isSome ∧ e.y2.isSome then
      some { x := jsMin e.x e.x2
             y := jsMin e.y e.y2
             w := jsOrInt (jsAbs (jsSub e.x2 e.x)) 24
             h := max 4 (jsOrInt (jsAbs (jsSub e.y2 e.y)) 4) }
    else none
  else none

/-- The target branches (`coin`/`goal`/`hazard` and `enemy`) of the entity loop. -/
def entTarget (e : Entity) : Option GTarget :=
  if e.etype = some "coin" ∨ e.etype = some "goal" ∨ e.etype = some "hazard" then
    some { x := e.x, y := e.y, w := jsOrInt e.w 28, h := jsOrInt e.h 28
           ttype := e.etype.getD "", props := none }
  else if e.etype = some "enemy" then
    some { x := e.x, y := e.y, w := jsOrInt e.w 32, h := jsOrInt e.h 32
           ttype := "enemy", props := some (e.props.getD ⟨none, none, none, none⟩) }
  else none

/-- The `playerSpawn` branch of the entity loop. -/
def entCharacter (e : Entity) : Option GCharacter :=
  if e.etype = some "playerSpawn" then
    some
      { id := jsOrStr e.id "char-1"
        name := jsOrStr e.label "Hero"
        imageUrl := jsOrStr (e.props.bind (fun p => p.imageUrl)) ""
        collider := (e.props.bind (fun p => p.collider)).getD ⟨48, 64, 0, 0⟩
        abilities :=
          { moveSpeed := (e.props.bind (fun p => p.moveSpeed)).getD 180
            jumpVelocity := (e.props.bind (fun p => p.jumpVelocity)).getD 420
            imageUrl := e.props.bind (fun p => p.imageUrl)
            collider := e.props.bind (fun p => p.collider) }
        spawn := { x := jsOrInt e.x 100, y := jsOrInt e.y 100 } }
  else none

/-- The `ensureScene` from `src/lib/generator.js`. -/
def ensureScene (design : Design) : GScene :=
  let cw : Int :=
    match design.canvas with
    | some c => jsOrInt c.width 1280
    | none => 1280
  let ch : Int :=
    match design.canvas with
    | some c => jsOrInt c.height 720
    | none => 720
  let platforms0 := design.entities.filterMap entPlatform
  let targets := design.entities.filterMap entTarget
  let characters0 := design.entities.filterMap entCharacter
  let platforms :=
    if platforms0 = [] then
      [({ x := some 0, y := some (ch - 60), w := cw, h := 60 } : GPlatform)]
    else platforms0
  let characters :=
    if characters0 = [] then
      [({ id := "char-1", name := "Hero", imageUrl := ""
          collider := ⟨48, 64, 0, 0⟩
          abilities := ⟨180, 420, none, none⟩
          spawn := ⟨120, ch - 120⟩ } : GCharacter)]
    else characters0
  { world := ⟨cw, ch, 1400⟩
    background := ⟨"", "cover"⟩
    platforms := platforms
    targets := targets
    characters := characters
    controls := ⟨true, true, "R", "X"⟩ }

end Gen

namespace Gen

/-- JSON-like runtime values handed to `JSON.stringify` (scene objects hold
integers, strings, booleans, arrays and plain objects). -/
inductive JVal where
  | num : Int → JVal
  | str : String → JVal
  | bool : Bool → JVal
  | null : JVal
  | arr : List JVal → JVal
  | obj : List (String × JVal) → JVal

/-- First-match property lookup on an assoc list (JavaScript property access). -/
def lookupKV {α : Type} : List (String × α) → String → Option α
  | [], _ => none
  | p :: rest, k => if p.1 = k then some p.2 else lookupKV rest k

/-- Lexicographic comparison of character lists, as JavaScript `sort()`
compares strings (code-unit order). -/
def charListLe : List Char → List Char → Bool
  | [], _ => true
  | _ :: _, [] => false
  | a :: as, b :: bs => if a = b then charListLe as bs else decide (a < b)

/-- Default string order of `Array.prototype.sort`. -/
def strLe (a b : String) : Bool := charListLe a.data b.data

/-- The `strLe` as a relation, for use with `List.insertionSort`. -/
def strLeP (a b : String) : Prop := strLe a b = true

instance : DecidableRel strLeP := fun a b => inferInstanceAs (Decidable (strLe a b = true))


/-- JSON string quoting, escaping the characters that occur in scene data. -/
def escChar (c : Char) : String :=
  if c = '"' then "\\\""
  else if c = '\\' then "\\\\"
  else if c = '\n' then "\\n"
  else if c = '\t' then "\\t"
  else if c = '\r' then "\\r"
  else String.mk [c]

def quoteJson (s : String) : String :=
  "\"" ++ String.join (s.data.map escChar) ++ "\""

/-- Join pretty-printed members with `",\n" ++ ind` (the ECMA separator). -/
def joinComma (ind : String) : List String → String
  | [] => ""
  | [s] => s
  | s :: rest => s ++ ",\n" ++ ind ++ joinComma ind rest

mutual

/-- ECMA-262 `JSON.stringify` serialization with an ARRAY replacer `r` and
two-space gap; `ind` is the accumulated indent.  With an array replacer, every
object level keeps exactly the properties named in `r`, in the order of `r`. -/
def serialize (r : List String) (ind : String) : JVal → String
  | .num n => toString n
  | .str s => quoteJson s
  | .bool b => if b then "true" else "false"
  | .null => "null"
  | .arr xs =>
    let items := serializeList r (ind ++ "  ") xs
    if items = [] then "[]"
    else "[\n" ++ ind ++ "  " ++ joinComma (ind ++ "  ") items ++ "\n" ++ ind ++ "]"
  | .obj fs =>
    let sfs := serializeFields r (ind ++ "  ") fs
    let items := r.filterMap fun k =>
      (lookupKV sfs k).map fun v => quoteJson k ++ ": " ++ v
    if items = [] then "\x7b\x7d"
    else "\x7b\n" ++ ind ++ "  " ++ joinComma (ind ++ "  ") items ++ "\n" ++ ind ++ "\x7d"

def serializeList (r : List String) (ind : String) : List JVal → List String
  | [] => []
  | v :: vs => serialize r ind v :: serializeList r ind vs

def serializeFields (r : List String) (ind : String) :
    List (String × JVal) → List (String × String)
  | [] => []
  | p :: ps => (p.1, serialize r ind p.2) :: serializeFields r ind ps

end

/-- The `Object.keys(obj)` (insertion order; `[]` on non-objects). -/
def rawKeys : JVal → List String
  | .obj fs => fs.map Prod.fst
  | _ => []

/-- ECMA `PropertyList` built from the replacer array: an item is appended
only when not already collected, so duplicates keep the first occurrence. -/
def dedupFirstAux (seen : List String) : List String → List String
  | [] => []
  | k :: rest =>
    if k ∈ seen then dedupFirstAux seen rest
    else k :: dedupFirstAux (k :: seen) rest

def dedupFirst (l : List String) : List String := dedupFirstAux [] l

/-- The replacer `Object.keys(obj).sort()` used by `stableStringify`. -/
def stableKeys (v : JVal) : List String :=
  dedupFirst (List.insertionSort strLeP (rawKeys v))

/-- The `stableStringify` from `src/lib/generator.js`:
`JSON.stringify(obj, Object.keys(obj).sort(), 2)`. -/
def stableStringify (v : JVal) : String :=
  serialize (stableKeys v) "" v

mutual

/-- Modelled from the spec: "Serializes the Scene to a canonical text form
using alphabetically sorted keys at every object level", preserving every
field and value, with the same two-space layout.  At each object the OWN keys
are sorted and all of them are emitted. -/
def specStringify (ind : String) : JVal → String
  | .num n => toString n
  | .str s => quoteJson s
  | .bool b => if b then "true" else "false"
  | .null => "null"
  | .arr xs =>
    let items := specStringifyList (ind ++ "  ") xs
    if items = [] then "[]"
    else "[\n" ++ ind ++ "  " ++ joinComma (ind ++ "  ") items ++ "\n" ++ ind ++ "]"
  | .obj fs =>
    let sfs := specStringifyFields (ind ++ "  ") fs
    let items := (dedupFirst (List.insertionSort strLeP
        (fs.map Prod.fst))).filterMap fun k =>
      (lookupKV sfs k).map fun v => quoteJson k ++ ": " ++ v
    if items = [] then "\x7b\x7d"
    else "\x7b\n" ++ ind ++ "  " ++ joinComma (ind ++ "  ") items ++ "\n" ++ ind ++ "\x7d"

def specStringifyList (ind : String) : List JVal → List String
  | [] => []
  | v :: vs => specStringify ind v :: specStringifyList ind vs

def specStringifyFields (ind : String) :
    List (String × JVal) → List (String × String)
  | [] => []
  | p :: ps => (p.1, specStringify ind p.2) :: specStringifyFields ind ps

end

def indexHtmlText : String :=
  "<!doctype html>\n"
  ++ "<html lang=\"en\">\n"
  ++ "<head>\n"
  ++ "  <meta charset=\"utf-8\" />\n"
  ++ "  <title>Sketch2Play Demo</title>\n"
  ++ "  <meta name=\"viewport\" content=\"width=device-width,initial-scale=1\" />\n"
  ++ "  <style>\n"
  ++ "    html,body\x7bmargin:0;height:100%;background:#0b1220;color:#fff;font-family:system-ui,Segoe UI,Roboto,Helvetica,Arial\x7d\n"
  ++ "    #game\x7bwidth:100%;height:100%;display:flex;align-items:center;justify-content:center\x7d\n"
  ++ "    canvas\x7boutline:none;display:block\x7d\n"
  ++ "    .hint\x7bposition:fixed;bottom:8px;left:8px;color:#cbd5e1;font-size:12px\x7d\n"
  ++ "  </style>\n"
  ++ "</head>\n"
  ++ "<body>\n"
  ++ "  <div id=\"game\"></div>\n"
  ++ "  <div class=\"hint\">Arrows move • Space jumps • R resets</div>\n"
  ++ "\n"
  ++ "  <!-- Phaser (CDN for demo) -->\n"
  ++ "  <script src=\"https://cdn.jsdelivr.net/npm/phaser@3/dist/phaser.min.js\"></script>\n"
  ++ "\n"
  ++ "  <!-- Game code -->\n"
  ++ "  <script src=\"./game.js\"></script>\n"
  ++ "\n"
  ++ "  <script>\n"
  ++ "    // Parent can instruct reset via postMessage\n"
  ++ "    window.addEventListener(\x27message\x27, (e) => \x7b\n"
  ++ "      try \x7b\n"
  ++ "        if (e.data && e.data.type === \x27reset\x27 && window.__levelScene) \x7b\n"
  ++ "          window.__levelScene.scene.restart();\n"
  ++ "        \x7d\n"
  ++ "      \x7d catch (err) \x7b /* ignore */ \x7d\n"
  ++ "    \x7d, false);\n"
  ++ "  </script>\n"
  ++ "</body>\n"
  ++ "</html>\n"
  ++ ""

def gameJsHead : String :=
  "<!doctype html>\n"
  ++ "<html lang=\"en\">\n"
  ++ "<head>\n"
  ++ "  <meta charset=\"utf-8\" />\n"
  ++ "  <title>Sketch2Play Demo</title>\n"
  ++ "  <meta name=\"viewport\" content=\"width=device-width,initial-scale=1\" />\n"
  ++ "  <style>\n"
  ++ "    html,body\x7bmargin:0;height:100%;background:#0b1220;color:#fff;font-family:system-ui,Segoe UI,Roboto,Helvetica,Arial\x7d\n"
  ++ "    #game\x7bwidth:100%;height:100%;display:flex;align-items:center;justify-content:center\x7d\n"
  ++ "    canvas\x7boutline:none;display:block\x7d\n"
  ++ "    .hint\x7bposition:fixed;bottom:8px;left:8px;color:#cbd5e1;font-size:12px\x7d\n"
  ++ "  </style>\n"
  ++ "</head>\n"
  ++ "<body>\n"
  ++ "  <div id=\"game\"></div>\n"
  ++ "  <div class=\"hint\">Arrows move • Space jumps • R resets</div>\n"
  ++ "\n"
  ++ "  <!-- Phaser (CDN for demo) -->\n"
  ++ "  <script src=\"https://cdn.jsdelivr.net/npm/phaser@3/dist/phaser.min.js\"></script>\n"
  ++ "\n"
  ++ "  <!-- Game code -->\n"
  ++ "  <script src=\"./game.js\"></script>\n"
  ++ "\n"
  ++ "  <script>\n"
  ++ "    // Parent can instruct reset via postMessage\n"
  ++ "    window.addEventListener(\x27message\x27, (e) => \x7b\n"
  ++ "      try \x7b\n"
  ++ "        if (e.data && e.data.type === \x27reset\x27 && window.__levelScene) \x7b\n"
  ++ "          window.__levelScene.scene.restart();\n"
  ++ "        \x7d\n"
  ++ "      \x7d catch (err) \x7b /* ignore */ \x7d\n"
  ++ "    \x7d, false);\n"
  ++ "  </script>\n"
  ++ "</body>\n"
  ++ "</html>\n"
  ++ "`;\n"
  ++ "\x7d\n"
  ++ "\n"
  ++ "function buildGameJs(scene) \x7b\n"
  ++ "  // Inline the SCENE data deterministically\n"
  ++ "  const sceneJson = stableStringify(scene);\n"
  ++ "\n"
  ++ "  // Minimal engine glue similar to the task example\n"
  ++ "  return `/* ==== GENERATED BY sketch2play static generator ==== */\n"
  ++ "const SCENE = "

def gameJsTail : String :=
  ";\n"
  ++ "\n"
  ++ "(function () \x7b\n"
  ++ "  const W = SCENE.world.width, H = SCENE.world.height;\n"
  ++ "\n"
  ++ "  const config = \x7b\n"
  ++ "    type: Phaser.AUTO,\n"
  ++ "    width: W,\n"
  ++ "    height: H,\n"
  ++ "    parent: \x27game\x27,\n"
  ++ "    backgroundColor: \x27#0b1220\x27,\n"
  ++ "    physics: \x7b default: \x27arcade\x27, arcade: \x7b gravity: \x7b y: SCENE.world.gravity || 1400 \x7d, debug: false \x7d \x7d,\n"
  ++ "    scene: \x7b preload, create, update \x7d\n"
  ++ "  \x7d;\n"
  ++ "\n"
  ++ "  const game = new Phaser.Game(config);\n"
  ++ "\n"
  ++ "  let cursors, keyR, player, platformsGroup, targetsGroup, bulletsGroup, facing = 1, canShootAt = 0;\n"
  ++ "\n"
  ++ "  function preload() \x7b\n"
  ++ "    // Pixel texture for primitives\n"
  ++ "    this.textures.generate(\x27pixel\x27, \x7b data: [\x271\x27], pixelWidth: 1, pixelHeight: 1 \x7d);\n"
  ++ "\n"
  ++ "    // Load background if provided\n"
  ++ "    if (SCENE.background && SCENE.background.imageUrl) \x7b\n"
  ++ "      try \x7b this.load.image(\x27bg\x27, SCENE.background.imageUrl); \x7d catch (e) \x7b\x7d\n"
  ++ "    \x7d\n"
  ++ "\n"
  ++ "    // Load first character image if present\n"
  ++ "    if (SCENE.characters && SCENE.characters[0] && SCENE.characters[0].imageUrl) \x7b\n"
  ++ "      try \x7b this.load.image(\x27hero\x27, SCENE.characters[0].imageUrl); \x7d catch (e) \x7b\x7d\n"
  ++ "    \x7d\n"
  ++ "  \x7d\n"
  ++ "\n"
  ++ "  function create() \x7b\n"
  ++ "    // Background (best-effort)\n"
  ++ "    if (this.textures.exists(\x27bg\x27)) \x7b\n"
  ++ "      const bg = this.add.image(0, 0, \x27bg\x27).setOrigin(0,0);\n"
  ++ "      fitBackground(bg, SCENE.background && SCENE.background.fit ? SCENE.background.fit : \x27cover\x27, this.scale.width, this.scale.height);\n"
  ++ "    \x7d\n"
  ++ "\n"
  ++ "    // Platforms\n"
  ++ "    platformsGroup = this.physics.add.staticGroup();\n"
  ++ "    (SCENE.platforms || []).forEach(p => \x7b\n"
  ++ "      const x = p.x + (p.w || 100) / 2;\n"
  ++ "      const y = p.y + (p.h || 24) / 2;\n"
  ++ "      const s = platformsGroup.create(x, y, \x27pixel\x27).setDisplaySize(p.w || 100, p.h || 24);\n"
  ++ "      s.refreshBody();\n"
  ++ "      s.setVisible(false);\n"
  ++ "    \x7d);\n"
  ++ "\n"
  ++ "    // Targets (coins, goals, enemies)\n"
  ++ "    targetsGroup = this.physics.add.staticGroup();\n"
  ++ "    (SCENE.targets || []).forEach(t => \x7b\n"
  ++ "      const s = targetsGroup.create((t.x || 0) + (t.w || 28)/2, (t.y || 0) + (t.h||28)/2, \x27pixel\x27).setDisplaySize(t.w || 28, t.h || 28);\n"
  ++ "      s.refreshBody();\n"
  ++ "      // color hints by type\n"
  ++ "      if (t.type === \x27coin\x27) s.setTint(0xffd54f);\n"
  ++ "      if (t.type === \x27goal\x27) s.setTint(0x6ee7b7);\n"
  ++ "      if (t.type === \x27hazard\x27) s.setTint(0xff6b6b);\n"
  ++ "      s.setAlpha(0.95);\n"
  ++ "    \x7d);\n"
  ++ "\n"
  ++ "    // Player\n"
  ++ "    const hero = SCENE.characters[0];\n"
  ++ "    const spawn = hero.spawn || \x7b x: 100, y: H - 120 \x7d;\n"
  ++ "    if (this.textures.exists(\x27hero\x27)) \x7b\n"
  ++ "      player = this.physics.add.sprite(spawn.x, spawn.y, \x27hero\x27);\n"
  ++ "      if (hero.collider) \x7b\n"
  ++ "        player.body.setSize(hero.collider.w || 48, hero.collider.h || 64);\n"
  ++ "        player.setOffset(hero.collider.offsetX || 0, hero.collider.offsetY || 0);\n"
  ++ "      \x7d\n"
  ++ "    \x7d else \x7b\n"
  ++ "      // fallback rectangle\n"
  ++ "      player = this.physics.add.sprite(spawn.x, spawn.y, \x27pixel\x27).setDisplaySize(48, 64);\n"
  ++ "      player.body.setSize(48, 64);\n"
  ++ "      player.setTint(0x8b5cf6);\n"
  ++ "    \x7d\n"
  ++ "    player.setCollideWorldBounds(true);\n"
  ++ "    player.setBounce(0);\n"
  ++ "\n"
  ++ "    // Collisions\n"
  ++ "    this.physics.add.collider(player, platformsGroup);\n"
  ++ "    this.physics.add.overlap(player, targetsGroup, (_p, target) => \x7b\n"
  ++ "      target.destroy();\n"
  ++ "      const txt = this.add.text(W/2, 48, \x27Collected!\x27, \x7b fontFamily: \x27system-ui\x27, fontSize: 24, color: \x27#fff\x27 \x7d).setOrigin(0.5);\n"
  ++ "      this.time.delayedCall(900, () => txt.destroy());\n"
  ++ "    \x7d);\n"
  ++ "\n"
  ++ "    // Input\n"
  ++ "    cursors = this.input.keyboard.createCursorKeys();\n"
  ++ "    keyR = this.input.keyboard.addKey(Phaser.Input.Keyboard.KeyCodes.R);\n"
  ++ "\n"
  ++ "    // Expose for parent reset\n"
  ++ "    window.__levelScene = this;\n"
  ++ "\n"
  ++ "    // Prevent page scrolls\n"
  ++ "    this.input.keyboard.addCapture([Phaser.Input.Keyboard.KeyCodes.LEFT, Phaser.Input.Keyboard.KeyCodes.RIGHT, Phaser.Input.Keyboard.KeyCodes.SPACE]);\n"
  ++ "  \x7d\n"
  ++ "\n"
  ++ "  function update(time, delta) \x7b\n"
  ++ "    const hero = SCENE.characters[0];\n"
  ++ "    const speed = clamp(hero.abilities && hero.abilities.moveSpeed ? hero.abilities.moveSpeed : 180, 50, 1000);\n"
  ++ "    const jumpV = -clamp(hero.abilities && hero.abilities.jumpVelocity ? hero.abilities.jumpVelocity : 420, 120, 1500);\n"
  ++ "\n"
  ++ "    if (cursors.left.isDown) \x7b\n"
  ++ "      player.setVelocityX(-speed);\n"
  ++ "      facing = -1; player.setFlipX(true);\n"
  ++ "    \x7d else if (cursors.right.isDown) \x7b\n"
  ++ "      player.setVelocityX(speed);\n"
  ++ "      facing = 1; player.setFlipX(false);\n"
  ++ "    \x7d else \x7b\n"
  ++ "      player.setVelocityX(0);\n"
  ++ "    \x7d\n"
  ++ "\n"
  ++ "    const grounded = player.body.blocked.down || player.body.touching.down;\n"
  ++ "    if (Phaser.Input.Keyboard.JustDown(cursors.space) && grounded) \x7b\n"
  ++ "      player.setVelocityY(jumpV);\n"
  ++ "    \x7d\n"
  ++ "\n"
  ++ "    if (Phaser.Input.Keyboard.JustDown(keyR)) \x7b\n"
  ++ "      this.scene.restart();\n"
  ++ "      return;\n"
  ++ "    \x7d\n"
  ++ "  \x7d\n"
  ++ "\n"
  ++ "  function fitBackground(img, mode, w, h) \x7b\n"
  ++ "    try \x7b\n"
  ++ "      if (!img.texture || !img.texture.getSourceImage) return;\n"
  ++ "      if (mode === \x27stretch\x27) \x7b img.setDisplaySize(w, h); return; \x7d\n"
  ++ "      const tex = img.texture.getSourceImage();\n"
  ++ "      const sx = w / tex.width, sy = h / tex.height, s = Math.max(sx, sy);\n"
  ++ "      img.setScale(s).setPosition(0,0).setOrigin(0,0);\n"
  ++ "    \x7d catch (e) \x7b /* ignore */ \x7d\n"
  ++ "  \x7d\n"
  ++ "\n"
  ++ "  function clamp(n, a, b) \x7b return Math.max(a, Math.min(b, n)); \x7d\n"
  ++ "\x7d)();\n"
  ++ ""

/-- The `buildIndexHtml` from `src/lib/generator.js`. -/
def buildIndexHtml : String := indexHtmlText

/-- The `buildGameJs` from `src/lib/generator.js`: the generated game program is
the fixed template around the inlined `stableStringify(scene)`. -/
def buildGameJs (scene : JVal) : String :=
  gameJsHead ++ stableStringify scene ++ gameJsTail

structure ManifestFile where
  path : String
  content : String
deriving DecidableEq, Repr

structure Manifest where
  kind : String
  runtime : String
  entry : String
  start : String
  files : List ManifestFile
deriving DecidableEq, Repr

def colliderJson (c : GCollider) : JVal :=
  .obj [("w", .num c.w), ("h", .num c.h),
        ("offsetX", .num c.offsetX), ("offsetY", .num c.offsetY)]

def propsJson (p : PropsIn) : JVal :=
  .obj ((p.moveSpeed.map (fun v => ("moveSpeed", JVal.num v))).toList ++
        (p.jumpVelocity.map (fun v => ("jumpVelocity", JVal.num v))).toList ++
        (p.imageUrl.map (fun s => ("imageUrl", JVal.str s))).toList ++
        (p.collider.map (fun c => ("collider", colliderJson c))).toList)

/-- Platforms as pushed by `ensureScene` (`x`/`y` omitted when `undefined`). -/
def platformJson (p : GPlatform) : JVal :=
  .obj ((p.x.map (fun v => ("x", JVal.num v))).toList ++
        (p.y.map (fun v => ("y", JVal.num v))).toList ++
        [("w", .num p.w), ("h", .num p.h)])

def targetJson (t : GTarget) : JVal :=
  .obj ((t.x.map (fun v => ("x", JVal.num v))).toList ++
        (t.y.map (fun v => ("y", JVal.num v))).toList ++
        [("w", .num t.w), ("h", .num t.h), ("type", .str t.ttype)] ++
        (t.props.map (fun p => ("props", propsJson p))).toList)

def abilitiesJson (a : GAbilities) : JVal :=
  .obj ([("moveSpeed", JVal.num a.moveSpeed), ("jumpVelocity", JVal.num a.jumpVelocity)] ++
        (a.imageUrl.map (fun s => ("imageUrl", JVal.str s))).toList ++
        (a.collider.map (fun c => ("collider", colliderJson c))).toList)

def characterJson (c : GCharacter) : JVal :=
  .obj [("id", .str c.id), ("name", .str c.name), ("imageUrl", .str c.imageUrl),
        ("collider", colliderJson c.collider),
        ("abilities", abilitiesJson c.abilities),
        ("spawn", .obj [("x", .num c.spawn.x), ("y", .num c.spawn.y)])]

/-- The scene value handed to `stableStringify`, with the key insertion order
of the object literals in `ensureScene`. -/
def sceneJson (s : GScene) : JVal :=
  .obj [("world", .obj [("width", .num s.world.width),
                        ("height", .num s.world.height),
                        ("gravity", .num s.world.gravity)]),
        ("background", .obj [("imageUrl", .str s.background.imageUrl),
                             ("fit", .str s.background.fit)]),
        ("platforms", .arr (s.platforms.map platformJson)),
        ("targets", .arr (s.targets.map targetJson)),
        ("characters", .arr (s.characters.map characterJson)),
        ("controls", .obj [("arrows", .bool s.controls.arrows),
                           ("spaceJump", .bool s.controls.spaceJump),
                           ("resetKey", .str s.controls.resetKey),
                           ("shootKey", .str s.controls.shootKey)])]

/-- The `generateBuildManifest` from `src/lib/generator.js`. -/
def generateBuildManifest (design : Design) : Manifest :=
  let scene := ensureScene design
  { kind := "web-service"
    runtime := "static"
    entry := "index.html"
    start := "static"
    files := [⟨"index.html", buildIndexHtml⟩,
              ⟨"game.js", buildGameJs (sceneJson scene)⟩] }

/-- Key-wise deduplication of object entries, first occurrence winning (a
JavaScript object cannot hold duplicate keys, and lookup keeps the first). -/
def dedupKeysAux (seen : List String) : List (String × JVal) → List (String × JVal)
  | [] => []
  | p :: rest =>
    if p.1 ∈ seen then dedupKeysAux seen rest
    else p :: dedupKeysAux (p.1 :: seen) rest

def dedupKeys (l : List (String × JVal)) : List (String × JVal) := dedupKeysAux [] l

/-- Entry order by key, used to canonicalize objects. -/
def keyLE (p q : String × JVal) : Prop := strLeP p.1 q.1

instance : DecidableRel keyLE := fun p q => inferInstanceAs (Decidable (strLeP p.1 q.1))

mutual

/-- Canonical form of a JSON value as a finite map: at every object level the
entries are deduplicated (first occurrence wins) and sorted by key.  Two
values denote the same finite-map tree iff their `normJ` forms are equal. -/
def normJ : JVal → JVal
  | .num n => .num n
  | .str s => .str s
  | .bool b => .bool b
  | .null => .null
  | .arr xs => .arr (normArr xs)
  | .obj fs => .obj (List.insertionSort keyLE (dedupKeys (normFields fs)))

def normArr : List JVal → List JVal
  | [] => []
  | v :: vs => normJ v :: normArr vs

def normFields : List (String × JVal) → List (String × JVal)
  | [] => []
  | p :: ps => (p.1, normJ p.2) :: normFields ps

end

end Gen

namespace SceneLib

/-- The spec's saturation to the nearest bound: inputs below the range map to
its minimum, above it to its maximum, and in-range values pass unchanged. -/
def nearestClamp (v lo hi : ℚ) : ℚ := if v < lo then lo else if hi < v then hi else v

/-- Output collider turned back into a `toScene` input component. -/
def colliderToIn (c : Collider) : ColliderIn := ⟨c.w, c.h, some c.offsetX, some c.offsetY⟩

/-- Output character turned back into a `toScene` input component. -/
def charToIn (c : Character) : CharIn where
  id := c.id
  name := c.name
  imageUrl := c.imageUrl
  collider := c.collider.map colliderToIn
  abilities :=
    { jump := c.abilities.jump
      slide := c.abilities.slide
      punch := c.abilities.punch
      moveSpeed := some c.abilities.moveSpeed
      jumpVelocity := some c.abilities.jumpVelocity
      shoot := c.abilities.shoot.map fun s => ⟨s.projectileSpeed, s.cooldownMs⟩ }
  spawnX := some c.spawn.x
  spawnY := some c.spawn.y

/-- Feed the components of a produced Scene (its characters, platforms,
background, world, controls) back into `toScene`, as the idempotence property
does.  Note the produced `Scene.background` has no `targets` field, so the
re-assembled background carries none. -/
def sceneToInput (s : Scene) : ToSceneInput where
  characters := s.characters.map charToIn
  platforms := s.platforms
  background := some ⟨s.background.imageUrl, s.background.fit, none⟩
  world := ⟨some s.world.width, some s.world.height, some s.world.gravity⟩
  controls := some s.controls

end SceneLib

namespace CharacterExtraction

/-- A rasterized sprite frame: RGBA bytes addressed by the scan loop as
`data[(y * width + x) * 4 + 3]` for the alpha channel. -/
structure Raster where
  width : Nat
  height : Nat
  data : Nat → Nat

structure ColliderBounds where
  w : Int
  h : Int
  offsetX : Int
  offsetY : Int
deriving DecidableEq, Repr

/-- Alpha value the scan reads at pixel `p`. -/
def alphaAt (r : Raster) (p : Nat × Nat) : Nat :=
  r.data ((p.2 * r.width + p.1) * 4 + 3)

/-- All pixel coordinates visited by the double loop, row-major. -/
def pixels (r : Raster) : List (Nat × Nat) :=
  (List.range r.height).flatMap fun y => (List.range r.width).map fun x => (x, y)

/-- The pixels with non-zero alpha, in scan order. -/
def alphaPixels (r : Raster) : List (Nat × Nat) :=
  (pixels r).filter fun p => 0 < alphaAt r p

/-- The `calculateColliderBounds` from `src/lib/characterExtraction.js`: the fold
formulation of the one-pass min/max tracking loop (`minX` starts at
`canvas.width`, `maxX` at `0`, and so on). -/
def calculateColliderBounds (r : Raster) : ColliderBounds :=
  let pts := alphaPixels r
  let minX : Int := pts.foldl (fun m p => min m (p.1 : Int)) (r.width : Int)
  let minY : Int := pts.foldl (fun m p => min m (p.2 : Int)) (r.height : Int)
  let maxX : Int := pts.foldl (fun m p => max m (p.1 : Int)) 0
  let maxY : Int := pts.foldl (fun m p => max m (p.2 : Int)) 0
  if pts = [] then
    { w := max 24 (r.width : Int), h := max 32 (r.height : Int), offsetX := 0, offsetY := 0 }
  else
    let padding : Int := 2
    let width := max 16 (maxX - minX + 1 + padding * 2)
    let height := max 24 (maxY - minY + 1 + padding * 2)
    { w := width
      h := height
      offsetX := max 0 (((r.width : Int) - width).fdiv 2)
      offsetY := max 0 (((r.height : Int) - height).fdiv 2) }

end CharacterExtraction


namespace Gen

theorem charListLe_total : ∀ a b : List Char, charListLe a b = true ∨ charListLe b a = true := by
  intro a
  induction a with
  | nil => intro b; left; rfl
  | cons x xs ih =>
    intro b
    cases b with
    | nil => right; rfl
    | cons y ys =>
      by_cases hxy : x = y
      · subst hxy
        rcases ih ys with h | h
        · left; simpa [charListLe] using h
        · right; simpa [charListLe] using h
      · rcases lt_or_gt_of_ne (fun hv => hxy hv) with h | h
        · left; simp [charListLe, hxy, h]
        · right
          have hyx : y ≠ x := fun hv => hxy hv.symm
          simp [charListLe, hyx, h]

theorem charListLe_trans :
    ∀ a b c : List Char, charListLe a b = true → charListLe b c = true →
      charListLe a c = true := by
  intro a
  induction a with
  | nil => intro b c _ _; rfl
  | cons x xs ih =>
    intro b c hab hbc
    cases b with
    | nil => simp [charListLe] at hab
    | cons y ys =>
      cases c with
      | nil => simp [charListLe] at hbc
      | cons z zs =>
        by_cases hxy : x = y
        · subst hxy
          by_cases hyz : x = z
          · subst hyz
            simp only [charListLe, if_pos rfl] at hab hbc ⊢
            exact ih ys zs hab hbc
          · simp only [charListLe, if_pos rfl] at hab
            simp only [charListLe, if_neg hyz] at hbc ⊢
            exact hbc
        · simp only [charListLe, if_neg hxy, decide_eq_true_eq] at hab
          by_cases hyz : y = z
          · subst hyz
            simp [charListLe, hxy, hab]
          · simp only [charListLe, if_neg hyz, decide_eq_true_eq] at hbc
            have hxz : x < z := lt_trans hab hbc
            have hne : x ≠ z := ne_of_lt hxz
            simp [charListLe, hne, hxz]

theorem charListLe_antisymm :
    ∀ a b : List Char, charListLe a b = true → charListLe b a = true → a = b := by
  intro a
  induction a with
  | nil =>
    intro b _ hba
    cases b with
    | nil => rfl
    | cons y ys => simp [charListLe] at hba
  | cons x xs ih =>
    intro b hab hba
    cases b with
    | nil => simp [charListLe] at hab
    | cons y ys =>
      by_cases hxy : x = y
      · subst hxy
        simp only [charListLe, if_pos rfl] at hab hba
        exact congrArg _ (ih ys hab hba)
      · simp only [charListLe, if_neg hxy, decide_eq_true_eq] at hab
        have hyx : y ≠ x := fun hv => hxy hv.symm
        simp only [charListLe, if_neg hyx, decide_eq_true_eq] at hba
        exact absurd hab (not_lt_of_gt hba)

instance : IsTotal String strLeP :=
  ⟨fun a b => charListLe_total a.data b.data⟩

instance : IsTrans String strLeP :=
  ⟨fun a b c hab hbc => charListLe_trans a.data b.data c.data hab hbc⟩

instance : IsAntisymm String strLeP :=
  ⟨fun a b hab hba => by
    apply String.ext
    exact charListLe_antisymm a.data b.data hab hba⟩

instance : IsTotal (String × JVal) keyLE := ⟨fun p q => total_of strLeP p.1 q.1⟩

instance : IsTrans (String × JVal) keyLE := ⟨fun _ _ _ h h2 => trans_of strLeP h h2⟩

end Gen

namespace Gen

theorem lookupKV_serializeFields (r : List String) (ind : String) (k : String)
    (fs : List (String × JVal)) :
    lookupKV (serializeFields r ind fs) k = (lookupKV fs k).map (serialize r ind) := by
  induction fs with
  | nil => rfl
  | cons p ps ih =>
    simp only [serializeFields, lookupKV]
    by_cases h : p.1 = k
    · simp [h]
    · simp [h, ih]

theorem lookupKV_normFields (k : String) (fs : List (String × JVal)) :
    lookupKV (normFields fs) k = (lookupKV fs k).map normJ := by
  induction fs with
  | nil => rfl
  | cons p ps ih =>
    simp only [normFields, lookupKV]
    by_cases h : p.1 = k
    · simp [h]
    · simp [h, ih]

theorem keys_normFields (fs : List (String × JVal)) :
    (normFields fs).map Prod.fst = fs.map Prod.fst := by
  induction fs with
  | nil => rfl
  | cons p ps ih => simp [normFields, ih]

theorem lookupKV_dedupKeysAux (k : String) (l : List (String × JVal)) :
    ∀ seen : List String, k ∉ seen →
      lookupKV (dedupKeysAux seen l) k = lookupKV l k := by
  induction l with
  | nil => intro seen _; rfl
  | cons p ps ih =>
    intro seen hk
    simp only [dedupKeysAux]
    by_cases hp : p.1 ∈ seen
    · have hne : ¬ p.1 = k := fun he => hk (he ▸ hp)
      rw [if_pos hp]
      simp only [lookupKV, if_neg hne]
      exact ih seen hk
    · rw [if_neg hp]
      simp only [lookupKV]
      by_cases he : p.1 = k
      · simp [he]
      · rw [if_neg he, if_neg he]
        apply ih
        intro hmem
        rcases List.mem_cons.mp hmem with h | h
        · exact he h.symm
        · exact hk h

theorem lookupKV_dedupKeys (k : String) (l : List (String × JVal)) :
    lookupKV (dedupKeys l) k = lookupKV l k :=
  lookupKV_dedupKeysAux k l [] (by simp)

theorem mem_keys_dedupKeysAux (k : String) (l : List (String × JVal)) :
    ∀ seen : List String,
      (k ∈ (dedupKeysAux seen l).map Prod.fst ↔ k ∈ l.map Prod.fst ∧ k ∉ seen) := by
  induction l with
  | nil => intro seen; simp [dedupKeysAux]
  | cons p ps ih =>
    intro seen
    simp only [dedupKeysAux]
    by_cases hp : p.1 ∈ seen
    · rw [if_pos hp, ih seen]
      simp only [List.map_cons, List.mem_cons]
      constructor
      · rintro ⟨h1, h2⟩
        exact ⟨Or.inr h1, h2⟩
      · rintro ⟨h1 | h1, h2⟩
        · exact absurd (h1 ▸ hp) h2
        · exact ⟨h1, h2⟩
    · rw [if_neg hp]
      simp only [List.map_cons, List.mem_cons, ih (p.1 :: seen), List.mem_cons]
      constructor
      · rintro (h | ⟨h1, h2⟩)
        · exact ⟨Or.inl h, fun hks => hp (h ▸ hks)⟩
        · exact ⟨Or.inr h1, fun hk => h2 (Or.inr hk)⟩
      · rintro ⟨h1 | h1, h2⟩
        · exact Or.inl h1
        · by_cases hkp : k = p.1
          · exact Or.inl hkp
          · right
            refine ⟨h1, ?_⟩
            rintro (h | h)
            · exact hkp h
            · exact h2 h

theorem nodup_keys_dedupKeysAux (l : List (String × JVal)) :
    ∀ seen : List String, ((dedupKeysAux seen l).map Prod.fst).Nodup := by
  induction l with
  | nil => intro seen; simp [dedupKeysAux]
  | cons p ps ih =>
    intro seen
    simp only [dedupKeysAux]
    by_cases hp : p.1 ∈ seen
    · rw [if_pos hp]; exact ih seen
    · rw [if_neg hp]
      simp only [List.map_cons, List.nodup_cons]
      refine ⟨fun hmem => ?_, ih (p.1 :: seen)⟩
      rcases (mem_keys_dedupKeysAux p.1 ps (p.1 :: seen)).mp hmem with ⟨_, h2⟩
      exact h2 (List.mem_cons_self _ _)

theorem lookupKV_perm {α : Type} {l l₂ : List (String × α)} (h : l.Perm l₂)
    (hn : (l.map Prod.fst).Nodup) (k : String) : lookupKV l k = lookupKV l₂ k := by
  induction h with
  | nil => rfl
  | cons x h ih =>
    simp only [lookupKV]
    by_cases hx : x.1 = k
    · simp [hx]
    · rw [if_neg hx, if_neg hx]
      exact ih (by simpa using (List.nodup_cons.mp (by simpa using hn)).2)
  | swap x y t =>
    have hxy : y.1 ≠ x.1 := by
      simp only [List.map_cons, List.nodup_cons, List.mem_cons] at hn
      exact fun he => hn.1 (Or.inl he)
    simp only [lookupKV]
    by_cases hy : y.1 = k <;> by_cases hx : x.1 = k
    · exact absurd (hy.trans hx.symm) hxy
    · simp [hy, hx]
    · simp [hy, hx]
    · simp [hy, hx]
  | trans h1 h2 ih1 ih2 =>
    rw [ih1 hn]
    exact ih2 ((List.Perm.map Prod.fst h1).nodup_iff.mp hn)

theorem mem_dedupFirstAux (k : String) (l : List String) :
    ∀ seen : List String, (k ∈ dedupFirstAux seen l ↔ k ∈ l ∧ k ∉ seen) := by
  induction l with
  | nil => intro seen; simp [dedupFirstAux]
  | cons a rest ih =>
    intro seen
    simp only [dedupFirstAux]
    by_cases ha : a ∈ seen
    · rw [if_pos ha, ih seen]
      simp only [List.mem_cons]
      constructor
      · rintro ⟨h1, h2⟩
        exact ⟨Or.inr h1, h2⟩
      · rintro ⟨h1 | h1, h2⟩
        · exact absurd (h1 ▸ ha) h2
        · exact ⟨h1, h2⟩
    · rw [if_neg ha]
      simp only [List.mem_cons, ih (a :: seen), List.mem_cons]
      constructor
      · rintro (h | ⟨h1, h2⟩)
        · exact ⟨Or.inl h, fun hks => ha (h ▸ hks)⟩
        · exact ⟨Or.inr h1, fun hk => h2 (Or.inr hk)⟩
      · rintro ⟨h1 | h1, h2⟩
        · exact Or.inl h1
        · by_cases hka : k = a
          · exact Or.inl hka
          · right
            refine ⟨h1, ?_⟩
            rintro (h | h)
            · exact hka h
            · exact h2 h

theorem mem_dedupFirst (k : String) (l : List String) :
    k ∈ dedupFirst l ↔ k ∈ l := by
  rw [dedupFirst, mem_dedupFirstAux]
  simp

theorem nodup_dedupFirstAux (l : List String) :
    ∀ seen : List String, (dedupFirstAux seen l).Nodup := by
  induction l with
  | nil => intro seen; simp [dedupFirstAux]
  | cons a rest ih =>
    intro seen
    simp only [dedupFirstAux]
    by_cases ha : a ∈ seen
    · rw [if_pos ha]; exact ih seen
    · rw [if_neg ha]
      simp only [List.nodup_cons]
      refine ⟨fun hmem => ?_, ih (a :: seen)⟩
      rcases (mem_dedupFirstAux a rest (a :: seen)).mp hmem with ⟨_, h2⟩
      exact h2 (List.mem_cons_self _ _)

theorem sublist_dedupFirstAux (l : List String) :
    ∀ seen : List String, (dedupFirstAux seen l).Sublist l := by
  induction l with
  | nil => intro seen; simp [dedupFirstAux]
  | cons a rest ih =>
    intro seen
    simp only [dedupFirstAux]
    by_cases ha : a ∈ seen
    · rw [if_pos ha]
      exact (ih seen).trans (List.sublist_cons_self a rest)
    · rw [if_neg ha]
      exact (ih (a :: seen)).cons₂ a

theorem sorted_dedupFirst_insertionSort (l : List String) :
    List.Sorted strLeP (dedupFirst (List.insertionSort strLeP l)) :=
  List.Pairwise.sublist (sublist_dedupFirstAux _ []) (List.sorted_insertionSort strLeP l)

theorem dedupFirst_sort_eq_of_mem_iff {x y : List String}
    (h : ∀ k, k ∈ x ↔ k ∈ y) :
    dedupFirst (List.insertionSort strLeP x) = dedupFirst (List.insertionSort strLeP y) := by
  apply List.eq_of_perm_of_sorted (r := strLeP)
  · apply List.perm_of_nodup_nodup_toFinset_eq
      (nodup_dedupFirstAux _ []) (nodup_dedupFirstAux _ [])
    apply Finset.ext
    intro k
    simp only [List.mem_toFinset, mem_dedupFirstAux, List.not_mem_nil, not_false_iff,
      and_true, (List.perm_insertionSort strLeP x).mem_iff,
      (List.perm_insertionSort strLeP y).mem_iff]
    exact h k
  · exact sorted_dedupFirst_insertionSort x
  · exact sorted_dedupFirst_insertionSort y

theorem stableKeys_normJ (v : JVal) : stableKeys (normJ v) = stableKeys v := by
  cases v with
  | num n => rfl
  | str s => rfl
  | bool b => rfl
  | null => rfl
  | arr xs => rfl
  | obj fs =>
    simp only [normJ, stableKeys, rawKeys]
    apply dedupFirst_sort_eq_of_mem_iff
    intro k
    rw [((List.perm_insertionSort keyLE (dedupKeys (normFields fs))).map Prod.fst).mem_iff]
    rw [dedupKeys, mem_keys_dedupKeysAux]
    simp [keys_normFields fs]

theorem sizeOf_pos_jval (v : JVal) : 1 ≤ sizeOf v := by
  cases v <;> simp_arith

theorem lookupKV_some_mem {α : Type} {l : List (String × α)} {k : String} {v : α}
    (h : lookupKV l k = some v) : ∃ p ∈ l, p.2 = v := by
  induction l with
  | nil => simp [lookupKV] at h
  | cons p ps ih =>
    simp only [lookupKV] at h
    by_cases hp : p.1 = k
    · rw [if_pos hp] at h
      exact ⟨p, List.mem_cons_self _ _, by injection h⟩
    · rw [if_neg hp] at h
      rcases ih h with ⟨q, hq, hv⟩
      exact ⟨q, List.mem_cons_of_mem _ hq, hv⟩

theorem serialize_normJ_size :
    ∀ n : Nat, ∀ v : JVal, sizeOf v ≤ n → ∀ (r : List String) (ind : String),
      serialize r ind (normJ v) = serialize r ind v := by
  intro n
  induction n with
  | zero =>
    intro v hv
    exact absurd hv (by have := sizeOf_pos_jval v; omega)
  | succ n ih =>
    intro v hv r ind
    cases v with
    | num m => rfl
    | str s => rfl
    | bool b => rfl
    | null => rfl
    | arr xs =>
      have hmem : ∀ x ∈ xs, ∀ ind' : String,
          serialize r ind' (normJ x) = serialize r ind' x := by
        intro x hx ind'
        apply ih
        have h1 : sizeOf x < sizeOf xs := List.sizeOf_lt_of_mem hx
        have h2 : sizeOf (JVal.arr xs) = 1 + sizeOf xs := by simp
        omega
      have hlist : serializeList r (ind ++ "  ") (normArr xs)
          = serializeList r (ind ++ "  ") xs := by
        clear hv
        induction xs with
        | nil => rfl
        | cons x xs ihx =>
          simp only [normArr, serializeList]
          rw [hmem x (by simp) (ind ++ "  "),
            ihx (fun y hy i => hmem y (by simp [hy]) i)]
      simp only [normJ, serialize]
      rw [hlist]
    | obj fs =>
      have hfield : ∀ k : String,
          lookupKV (serializeFields r (ind ++ "  ")
            (List.insertionSort keyLE (dedupKeys (normFields fs)))) k
          = lookupKV (serializeFields r (ind ++ "  ") fs) k := by
        intro k
        rw [lookupKV_serializeFields, lookupKV_serializeFields]
        have hsortnodup :
            ((List.insertionSort keyLE (dedupKeys (normFields fs))).map Prod.fst).Nodup := by
          apply ((List.Perm.map Prod.fst
            (List.perm_insertionSort keyLE (dedupKeys (normFields fs)))).nodup_iff).mpr
          exact nodup_keys_dedupKeysAux _ []
        rw [lookupKV_perm (List.perm_insertionSort keyLE (dedupKeys (normFields fs)))
          hsortnodup k]
        rw [lookupKV_dedupKeys, lookupKV_normFields]
        cases hlk : lookupKV fs k with
        | none => rfl
        | some w =>
          simp only [Option.map_some']
          rw [ih w ?_ r (ind ++ "  ")]
          rcases lookupKV_some_mem hlk with ⟨p, hp, hv⟩
          have hle : sizeOf w ≤ sizeOf p := by
            cases p
            cases hv
            simp_arith
          have h1 : sizeOf p < sizeOf fs := List.sizeOf_lt_of_mem hp
          have h2 : sizeOf (JVal.obj fs) = 1 + sizeOf fs := by simp
          omega
      have hfun :
          (fun k : String => (lookupKV (serializeFields r (ind ++ "  ")
              (List.insertionSort keyLE (dedupKeys (normFields fs)))) k).map
              (fun s => quoteJson k ++ ": " ++ s))
          = (fun k : String => (lookupKV (serializeFields r (ind ++ "  ") fs) k).map
              (fun s => quoteJson k ++ ": " ++ s)) := by
        funext k
        rw [hfield k]
      simp only [normJ, serialize]
      rw [hfun]

theorem stableStringify_eq_of_normJ {v1 v2 : JVal} (h : normJ v1 = normJ v2) :
    stableStringify v1 = stableStringify v2 := by
  have hk : stableKeys v1 = stableKeys v2 := by
    rw [← stableKeys_normJ v1, h, stableKeys_normJ]
  unfold stableStringify
  rw [hk]
  rw [← serialize_normJ_size (sizeOf v1) v1 le_rfl (stableKeys v2) "",
    ← serialize_normJ_size (sizeOf v2) v2 le_rfl (stableKeys v2) "", h]

end Gen

namespace SceneLib

theorem clamp_eq_nearestClamp (n lo hi : ℚ) (h : lo ≤ hi) :
    clamp n lo hi = nearestClamp n lo hi := by
  unfold clamp nearestClamp
  rcases lt_or_le n lo with h1 | h1
  · rw [if_pos h1, min_eq_right (h1.le.trans h), max_eq_left h1.le]
  · rw [if_neg (not_lt.mpr h1)]
    rcases lt_or_le hi n with h2 | h2
    · rw [if_pos h2, min_eq_left h2.le, max_eq_right h]
    · rw [if_neg (not_lt.mpr h2), min_eq_right h2, max_eq_right h1]

theorem clamp_clamp (n lo hi : ℚ) : clamp (clamp n lo hi) lo hi = clamp n lo hi := by
  unfold clamp
  rcases le_total lo hi with h | h
  · rcases le_total n hi with h1 | h1
    · rw [min_eq_right h1, min_eq_right (max_le h h1), ← max_assoc, max_self]
    · rw [min_eq_left h1, max_eq_right h, min_self, max_eq_right h]
  · have h1 : min hi n ≤ lo := (min_le_left _ _).trans h
    rw [max_eq_left h1, min_eq_left h, max_eq_left h]

theorem jsOrStr_of_ne (s d : String) (h : s ≠ "") : jsOrStr s d = s := by
  unfold jsOrStr
  rw [if_neg h]

theorem jsOrStr_ne (s d : String) (h : d ≠ "") : jsOrStr s d ≠ "" := by
  unfold jsOrStr
  by_cases hs : s = ""
  · rw [if_pos hs]; exact h
  · rw [if_neg hs]; exact hs

theorem length_mapIdxFrom (f : Nat → α → β) :
    ∀ (n : Nat) (l : List α), (mapIdxFrom f n l).length = l.length := by
  intro n l
  induction l generalizing n with
  | nil => rfl
  | cons a as ih => simp [mapIdxFrom, ih]

theorem get_mapIdxFrom (f : Nat → α → β) :
    ∀ (l : List α) (n i : Nat) (h : i < (mapIdxFrom f n l).length) (h2 : i < l.length),
      (mapIdxFrom f n l).get ⟨i, h⟩ = f (n + i) (l.get ⟨i, h2⟩) := by
  intro l
  induction l with
  | nil => intro n i h h2; simp at h2
  | cons a as ih =>
    intro n i h h2
    cases i with
    | zero => simp [mapIdxFrom]
    | succ j =>
      have hj : j < (mapIdxFrom f (n + 1) as).length := by
        simpa [mapIdxFrom] using h
      have hj2 : j < as.length := by simpa using h2
      have : (mapIdxFrom f n (a :: as)).get ⟨j + 1, h⟩
          = (mapIdxFrom f (n + 1) as).get ⟨j, hj⟩ := rfl
      rw [this, ih (n + 1) j hj hj2]
      congr 1
      omega

theorem map_imageUrl_mapIdxFrom (W H : ℚ) :
    ∀ (n : Nat) (l : List CharIn),
      (mapIdxFrom (toChar W H) n l).map Character.imageUrl = l.map CharIn.imageUrl := by
  intro n l
  induction l generalizing n with
  | nil => rfl
  | cons a as ih => simp [mapIdxFrom, toChar, ih]

theorem get_take_eq {α : Type _} :
    ∀ (l : List α) (n i : Nat) (h : i < (l.take n).length) (h2 : i < l.length),
      (l.take n).get ⟨i, h⟩ = l.get ⟨i, h2⟩ := by
  intro l
  induction l with
  | nil => intro n i h h2; simp at h2
  | cons a as ih =>
    intro n i h h2
    cases n with
    | zero => simp at h
    | succ m =>
      cases i with
      | zero => rfl
      | succ j =>
        have hj : j < (as.take m).length := by simpa using h
        have hj2 : j < as.length := by simpa using h2
        have : ((a :: as).take (m + 1)).get ⟨j + 1, h⟩ = (as.take m).get ⟨j, hj⟩ := rfl
        rw [this, ih m j hj hj2]
        rfl

theorem toScene_characters_length (inp : ToSceneInput) :
    (toScene inp).characters.length = min 3 inp.characters.length := by
  show (mapIdxFrom _ 0 (inp.characters.take CONSTRAINTS.maxCharacters)).length = _
  rw [length_mapIdxFrom, List.length_take]
  rfl

theorem toScene_characters_get (inp : ToSceneInput) (i : Nat)
    (h : i < (toScene inp).characters.length) (h2 : i < inp.characters.length) :
    (toScene inp).characters.get ⟨i, h⟩
      = toChar (inp.world.width.getD DEFAULTS_world.width)
          (inp.world.height.getD DEFAULTS_world.height) i (inp.characters.get ⟨i, h2⟩) := by
  have hmin : i < min 3 inp.characters.length := by
    rw [← toScene_characters_length inp]; exact h
  have htake : i < (inp.characters.take CONSTRAINTS.maxCharacters).length := by
    simp only [List.length_take]
    exact hmin
  have hstep :
      (toScene inp).characters.get ⟨i, h⟩
        = (mapIdxFrom (toChar (inp.world.width.getD DEFAULTS_world.width)
            (inp.world.height.getD DEFAULTS_world.height)) 0
            (inp.characters.take CONSTRAINTS.maxCharacters)).get ⟨i, h⟩ := rfl
  rw [hstep, get_mapIdxFrom _ _ 0 i h htake, get_take_eq _ _ i htake h2]
  simp

end SceneLib

/-- C3: for every numeric input, `toScene` clamps each value to the nearest
bound of its fixed range — `moveSpeed` to [50,800], `jumpVelocity` to
[100,1500], world gravity to [100,3000] and collider w/h to [8,256] — and
in-range values pass through unchanged. -/
theorem c3_toScene_clamps_to_nearest_bound
    (c : SceneLib.CharIn) (ps : List SceneLib.Platform) (bg : Option SceneLib.BackgroundIn)
    (w : SceneLib.WorldIn) (ctl : Option SceneLib.Controls)
    (ms jv g : ℚ) (col : SceneLib.ColliderIn)
    (hms : c.abilities.moveSpeed = some ms)
    (hjv : c.abilities.jumpVelocity = some jv)
    (hcol : c.collider = some col)
    (hg : w.gravity = some g) :
    ∃ c1 : SceneLib.Character,
      (SceneLib.toScene ⟨[c], ps, bg, w, ctl⟩).characters = [c1]
      ∧ c1.abilities.moveSpeed = SceneLib.nearestClamp ms 50 800
      ∧ c1.abilities.jumpVelocity = SceneLib.nearestClamp jv 100 1500
      ∧ (∃ col1 : SceneLib.Collider, c1.collider = some col1
          ∧ col1.w = SceneLib.nearestClamp col.w 8 256
          ∧ col1.h = SceneLib.nearestClamp col.h 8 256)
      ∧ (SceneLib.toScene ⟨[c], ps, bg, w, ctl⟩).world.gravity
          = SceneLib.nearestClamp g 100 3000 := by
  refine ⟨SceneLib.toChar (w.width.getD SceneLib.DEFAULTS_world.width)
    (w.height.getD SceneLib.DEFAULTS_world.height) 0 c, rfl, ?_, ?_, ?_, ?_⟩
  · simp only [SceneLib.toChar, hms, Option.getD_some]
    exact SceneLib.clamp_eq_nearestClamp ms 50 800 (by norm_num)
  · simp only [SceneLib.toChar, hjv, Option.getD_some]
    exact SceneLib.clamp_eq_nearestClamp jv 100 1500 (by norm_num)
  · refine ⟨⟨SceneLib.clamp col.w 8 256, SceneLib.clamp col.h 8 256,
      col.offsetX.getD 0, col.offsetY.getD 0⟩, ?_, ?_, ?_⟩
    · simp only [SceneLib.toChar, hcol, Option.map_some']
    · exact SceneLib.clamp_eq_nearestClamp col.w 8 256 (by norm_num)
    · exact SceneLib.clamp_eq_nearestClamp col.h 8 256 (by norm_num)
  · simp only [SceneLib.toScene, hg, Option.getD_some]
    exact SceneLib.clamp_eq_nearestClamp g 100 3000 (by norm_num)

/-- C3 witness: a character with out-of-range `moveSpeed = 9999`,
`jumpVelocity = -3`, collider `300 × 1`, and gravity `5000`. -/
theorem c3_witness :
    ∃ c1 : SceneLib.Character,
      (SceneLib.toScene ⟨[⟨"", "", "", some ⟨300, 1, none, none⟩,
          ⟨none, none, none, some 9999, some (-3), none⟩, none, none⟩], [], none,
          ⟨none, none, some 5000⟩, none⟩).characters = [c1]
      ∧ c1.abilities.moveSpeed = SceneLib.nearestClamp 9999 50 800
      ∧ c1.abilities.jumpVelocity = SceneLib.nearestClamp (-3) 100 1500
      ∧ (∃ col1 : SceneLib.Collider, c1.collider = some col1
          ∧ col1.w = SceneLib.nearestClamp 300 8 256
          ∧ col1.h = SceneLib.nearestClamp 1 8 256)
      ∧ (SceneLib.toScene ⟨[⟨"", "", "", some ⟨300, 1, none, none⟩,
          ⟨none, none, none, some 9999, some (-3), none⟩, none, none⟩], [], none,
          ⟨none, none, some 5000⟩, none⟩).world.gravity
          = SceneLib.nearestClamp 5000 100 3000 :=
  c3_toScene_clamps_to_nearest_bound _ [] none _ none 9999 (-3) 5000 ⟨300, 1, none, none⟩
    rfl rfl rfl rfl

/-- C4: with more than 3 input characters, `toScene` keeps exactly the first
3 in their original order (witnessed by the verbatim `imageUrl` field). -/
theorem c4_toScene_truncates_to_first_three
    (chars : List SceneLib.CharIn) (ps : List SceneLib.Platform)
    (bg : Option SceneLib.BackgroundIn) (w : SceneLib.WorldIn)
    (ctl : Option SceneLib.Controls) (h : 3 < chars.length) :
    (SceneLib.toScene ⟨chars, ps, bg, w, ctl⟩).characters.length = 3
    ∧ (SceneLib.toScene ⟨chars, ps, bg, w, ctl⟩).characters.map SceneLib.Character.imageUrl
      = (chars.take 3).map SceneLib.CharIn.imageUrl := by
  constructor
  · rw [SceneLib.toScene_characters_length]
    simp only
    omega
  · exact SceneLib.map_imageUrl_mapIdxFrom _ _ 0 (chars.take 3)

/-- C4 witness: five concrete characters, distinguished by `imageUrl`. -/
theorem c4_witness :
    (SceneLib.toScene ⟨[⟨"", "", "u1", none, ⟨none, none, none, none, none, none⟩, none, none⟩,
        ⟨"", "", "u2", none, ⟨none, none, none, none, none, none⟩, none, none⟩,
        ⟨"", "", "u3", none, ⟨none, none, none, none, none, none⟩, none, none⟩,
        ⟨"", "", "u4", none, ⟨none, none, none, none, none, none⟩, none, none⟩,
        ⟨"", "", "u5", none, ⟨none, none, none, none, none, none⟩, none, none⟩],
        [], none, ⟨none, none, none⟩, none⟩).characters.length = 3
    ∧ (SceneLib.toScene ⟨[⟨"", "", "u1", none, ⟨none, none, none, none, none, none⟩, none, none⟩,
        ⟨"", "", "u2", none, ⟨none, none, none, none, none, none⟩, none, none⟩,
        ⟨"", "", "u3", none, ⟨none, none, none, none, none, none⟩, none, none⟩,
        ⟨"", "", "u4", none, ⟨none, none, none, none, none, none⟩, none, none⟩,
        ⟨"", "", "u5", none, ⟨none, none, none, none, none, none⟩, none, none⟩],
        [], none, ⟨none, none, none⟩, none⟩).characters.map SceneLib.Character.imageUrl
      = (([⟨"", "", "u1", none, ⟨none, none, none, none, none, none⟩, none, none⟩,
        ⟨"", "", "u2", none, ⟨none, none, none, none, none, none⟩, none, none⟩,
        ⟨"", "", "u3", none, ⟨none, none, none, none, none, none⟩, none, none⟩,
        ⟨"", "", "u4", none, ⟨none, none, none, none, none, none⟩, none, none⟩,
        ⟨"", "", "u5", none, ⟨none, none, none, none, none, none⟩, none,
          none⟩] : List SceneLib.CharIn).take 3).map SceneLib.CharIn.imageUrl :=
  c4_toScene_truncates_to_first_three
    [⟨"", "", "u1", none, ⟨none, none, none, none, none, none⟩, none, none⟩,
      ⟨"", "", "u2", none, ⟨none, none, none, none, none, none⟩, none, none⟩,
      ⟨"", "", "u3", none, ⟨none, none, none, none, none, none⟩, none, none⟩,
      ⟨"", "", "u4", none, ⟨none, none, none, none, none, none⟩, none, none⟩,
      ⟨"", "", "u5", none, ⟨none, none, none, none, none, none⟩, none, none⟩]
    [] none ⟨none, none, none⟩ none (by norm_num)

/-- C10: a retained character whose abilities omit `moveSpeed` (resp.
`jumpVelocity`) receives exactly 180 (resp. 420), and both defaults lie
strictly inside their clamp ranges. -/
theorem c10_toScene_ability_defaults
    (chars : List SceneLib.CharIn) (ps : List SceneLib.Platform)
    (bg : Option SceneLib.BackgroundIn) (w : SceneLib.WorldIn)
    (ctl : Option SceneLib.Controls) (i : Nat)
    (hi : i < chars.length) (hi3 : i < 3)
    (hms : (chars.get ⟨i, hi⟩).abilities.moveSpeed = none)
    (hjv : (chars.get ⟨i, hi⟩).abilities.jumpVelocity = none) :
    ∃ hlen : i < (SceneLib.toScene ⟨chars, ps, bg, w, ctl⟩).characters.length,
      ((SceneLib.toScene ⟨chars, ps, bg, w, ctl⟩).characters.get ⟨i, hlen⟩).abilities.moveSpeed
        = 180
      ∧ ((SceneLib.toScene ⟨chars, ps, bg, w, ctl⟩).characters.get
          ⟨i, hlen⟩).abilities.jumpVelocity = 420
      ∧ SceneLib.CONSTRAINTS.moveSpeed.min < 180
      ∧ (180 : ℚ) < SceneLib.CONSTRAINTS.moveSpeed.max
      ∧ SceneLib.CONSTRAINTS.jumpVelocity.min < 420
      ∧ (420 : ℚ) < SceneLib.CONSTRAINTS.jumpVelocity.max := by
  have hlen : i < (SceneLib.toScene ⟨chars, ps, bg, w, ctl⟩).characters.length := by
    rw [SceneLib.toScene_characters_length]
    simp only
    omega
  refine ⟨hlen, ?_, ?_, by norm_num [SceneLib.CONSTRAINTS], by norm_num [SceneLib.CONSTRAINTS],
    by norm_num [SceneLib.CONSTRAINTS], by norm_num [SceneLib.CONSTRAINTS]⟩
  · rw [SceneLib.toScene_characters_get _ i hlen hi]
    simp only [SceneLib.toChar, hms, Option.getD_none]
    show SceneLib.clamp 180 50 800 = 180
    rw [SceneLib.clamp]
    norm_num
  · rw [SceneLib.toScene_characters_get _ i hlen hi]
    simp only [SceneLib.toChar, hjv, Option.getD_none]
    show SceneLib.clamp 420 100 1500 = 420
    rw [SceneLib.clamp]
    norm_num

/-- C10 witness: one character with an empty abilities record. -/
theorem c10_witness :
    ∃ hlen : 0 < (SceneLib.toScene ⟨[⟨"", "", "", none, ⟨none, none, none, none, none, none⟩,
        none, none⟩], [], none, ⟨none, none, none⟩, none⟩).characters.length,
      ((SceneLib.toScene ⟨[⟨"", "", "", none, ⟨none, none, none, none, none, none⟩,
        none, none⟩], [], none, ⟨none, none, none⟩,
        none⟩).characters.get ⟨0, hlen⟩).abilities.moveSpeed = 180
      ∧ ((SceneLib.toScene ⟨[⟨"", "", "", none, ⟨none, none, none, none, none, none⟩,
        none, none⟩], [], none, ⟨none, none, none⟩,
        none⟩).characters.get ⟨0, hlen⟩).abilities.jumpVelocity = 420
      ∧ SceneLib.CONSTRAINTS.moveSpeed.min < 180
      ∧ (180 : ℚ) < SceneLib.CONSTRAINTS.moveSpeed.max
      ∧ SceneLib.CONSTRAINTS.jumpVelocity.min < 420
      ∧ (420 : ℚ) < SceneLib.CONSTRAINTS.jumpVelocity.max :=
  c10_toScene_ability_defaults _ [] none ⟨none, none, none⟩ none 0 (by norm_num) (by norm_num)
    rfl rfl

/-- C5: for every design document, the Scene produced by `ensureScene` has at
least one platform and at least one character. -/
theorem c5_ensureScene_has_platform_and_character (d : Gen.Design) :
    1 ≤ (Gen.ensureScene d).platforms.length
    ∧ 1 ≤ (Gen.ensureScene d).characters.length := by
  constructor
  · by_cases h : d.entities.filterMap Gen.entPlatform = []
    · simp [Gen.ensureScene, h]
    · simp only [Gen.ensureScene, if_neg h]
      exact List.length_pos.mpr h
  · by_cases h : d.entities.filterMap Gen.entCharacter = []
    · simp [Gen.ensureScene, h]
    · simp only [Gen.ensureScene, if_neg h]
      exact List.length_pos.mpr h

/-- C6: `ensureScene` on `{canvas:{width:1280,height:720}, entities:[]}`
yields exactly one platform `(0, 660, 1280, 60)` and exactly one character
with id `"char-1"` and spawn `(120, 600)`. -/
theorem c6_ensureScene_fallback_values :
    (Gen.ensureScene ⟨some ⟨some 1280, some 720⟩, []⟩).platforms
      = [⟨some 0, some 660, 1280, 60⟩]
    ∧ (Gen.ensureScene ⟨some ⟨some 1280, some 720⟩, []⟩).characters.map
        (fun c => (c.id, c.spawn))
      = [("char-1", ⟨120, 600⟩)] :=
  ⟨rfl, rfl⟩

/-- C1: the generated game file does NOT embed the Scene faithfully — the
sorted-key array passed to `JSON.stringify` acts as a property whitelist at
every nesting level, so all nested fields are dropped: the Scene built for the
empty design carries `world = {width:1280, height:720, gravity:1400}`, a full
ground platform and a default character, yet the game file embeds
`"world": {}`, `"platforms": [{}]`, `"characters": [{}]`, differing from the
spec-modelled sorted-keys serialization that preserves every field. -/
theorem c1_game_file_drops_scene_fields :
    Gen.ensureScene ⟨some ⟨some 1280, some 720⟩, []⟩
      = { world := ⟨1280, 720, 1400⟩
          background := ⟨"", "cover"⟩
          platforms := [⟨some 0, some 660, 1280, 60⟩]
          targets := []
          characters := [⟨"char-1", "Hero", "", ⟨48, 64, 0, 0⟩, ⟨180, 420, none, none⟩,
            ⟨120, 600⟩⟩]
          controls := ⟨true, true, "R", "X"⟩ }
    ∧ Gen.buildGameJs (Gen.sceneJson (Gen.ensureScene ⟨some ⟨some 1280, some 720⟩, []⟩))
      = Gen.gameJsHead ++
        "\x7b\n  \"background\": \x7b\x7d,\n  \"characters\": [\n    \x7b\x7d\n  ],\n  \"controls\": \x7b\x7d,\n  \"platforms\": [\n    \x7b\x7d\n  ],\n  \"targets\": [],\n  \"world\": \x7b\x7d\n\x7d"
        ++ Gen.gameJsTail
    ∧ Gen.stableStringify (Gen.sceneJson (Gen.ensureScene ⟨some ⟨some 1280, some 720⟩, []⟩))
      ≠ Gen.specStringify "" (Gen.sceneJson (Gen.ensureScene ⟨some ⟨some 1280, some 720⟩, []⟩)) :=
  ⟨rfl, rfl, by decide⟩

/-- C2: the Build Manifest Generator is deterministic — repeated calls agree,
and any two designs whose compiled Scenes are equal as finite maps (same
fields and values at every level, regardless of object key insertion order)
produce byte-identical manifests. -/
theorem c2_generateBuildManifest_deterministic :
    (∀ d : Gen.Design, Gen.generateBuildManifest d = Gen.generateBuildManifest d)
    ∧ ∀ d1 d2 : Gen.Design,
        Gen.normJ (Gen.sceneJson (Gen.ensureScene d1))
          = Gen.normJ (Gen.sceneJson (Gen.ensureScene d2)) →
        Gen.generateBuildManifest d1 = Gen.generateBuildManifest d2 := by
  refine ⟨fun d => rfl, fun d1 d2 h => ?_⟩
  simp only [Gen.generateBuildManifest, Gen.buildGameJs]
  rw [Gen.stableStringify_eq_of_normJ h]

/-- C2 witness: the empty design and a design holding only an unrecognized
entity type compile to the same Scene, hence identical manifests. -/
theorem c2_witness :
    Gen.generateBuildManifest ⟨some ⟨some 1280, some 720⟩, []⟩
      = Gen.generateBuildManifest ⟨some ⟨some 1280, some 720⟩,
          [⟨some "decoration", none, some 5, some 6, none, none, none, none, none, none,
            none⟩]⟩ :=
  c2_generateBuildManifest_deterministic.2 _ _ rfl

namespace SceneLib

theorem splitComma_append_comma (l2 : List Char) :
    ∀ l1 : List Char, ',' ∉ l1 → splitComma (l1 ++ ',' :: l2) = l1 :: splitComma l2 := by
  intro l1
  induction l1 with
  | nil => intro; simp [splitComma]
  | cons c cs ih =>
    intro h
    have hc : ¬ c = ',' := fun he => h (he ▸ List.mem_cons_self c cs)
    rw [List.cons_append]
    simp only [splitComma, if_neg hc]
    rw [ih (fun hm => h (List.mem_cons_of_mem _ hm))]

theorem splitComma_no_comma : ∀ l : List Char, ',' ∉ l → splitComma l = [l] := by
  intro l
  induction l with
  | nil => intro; rfl
  | cons c cs ih =>
    intro h
    have hc : ¬ c = ',' := fun he => h (he ▸ List.mem_cons_self c cs)
    simp only [splitComma, if_neg hc]
    rw [ih (fun hm => h (List.mem_cons_of_mem _ hm))]

theorem dataUriBytes_data_uri (payload : List Char) (hp : ',' ∉ payload) :
    dataUriBytes (String.mk ("data:image/png;base64,".data ++ payload))
      = payload.length * 3 / 4 := by
  have hsplit : splitComma ("data:image/png;base64,".data ++ payload)
      = ["data:image/png;base64".data, payload] := by
    rw [show ("data:image/png;base64,".data : List Char)
        = "data:image/png;base64".data ++ [','] from by decide]
    rw [List.append_assoc, List.singleton_append]
    rw [splitComma_append_comma _ _ (by decide)]
    rw [splitComma_no_comma _ hp]
  unfold dataUriBytes
  rw [show (String.mk ("data:image/png;base64,".data ++ payload)).data
      = "data:image/png;base64,".data ++ payload from rfl]
  rw [hsplit]
  rfl

theorem dataUriBytes_twoMB :
    dataUriBytes (String.mk ("data:image/png;base64,".data ++ List.replicate 2796204 'A'))
      = 2097153 := by
  rw [dataUriBytes_data_uri (List.replicate 2796204 'A') (fun hm => by
    have := List.eq_of_mem_replicate hm
    simp at this)]
  rw [List.length_replicate]

theorem jsStartsWith_twoMB :
    jsStartsWith (String.mk ("data:image/png;base64,".data ++ List.replicate 2796204 'A'))
      "data:" = true := by
  unfold jsStartsWith
  rw [ List.isPrefixOf_iff_prefix]
  have hd : ("data:image/png;base64,".data : List Char)
      = "data:".data ++ "image/png;base64,".data := by decide
  show ("data:".data : List Char) <+: ("data:image/png;base64,".data ++ _)
  rw [hd, List.append_assoc]
  exact ⟨_, rfl⟩

theorem jsStartsWith_self_append (pre x : String) :
    jsStartsWith (pre ++ x) pre = true := by
  unfold jsStartsWith
  rw [ List.isPrefixOf_iff_prefix, String.data_append]
  exact ⟨_, rfl⟩

theorem not_background_of_head_ne (s x : String) (c : Char) (cs : List Char)
    (hs : s.data = c :: cs) (hc : c ≠ 'B') :
    jsStartsWith (s ++ x) "Background" = false := by
  unfold jsStartsWith
  have hdata : (s ++ x).data = c :: (cs ++ x.data) := by
    rw [String.data_append, hs, List.cons_append]
  rw [hdata]
  have hb : ("Background".data : List Char) = 'B' :: "ackground".data := by decide
  rw [hb]
  simp only [List.isPrefixOf]
  have hbc : ('B' == c) = false := by
    cases hq : ('B' == c)
    · rfl
    · exact absurd (beq_iff_eq.mp hq).symm hc
  rw [hbc]
  rfl

theorem charSizeErr_not_background (i : Nat) (c : CharIn) :
    ∀ m ∈ charSizeErr i c, jsStartsWith m "Background" = false := by
  intro m hm
  unfold charSizeErr at hm
  by_cases h1 : jsStartsWith c.imageUrl "data:" = true
  · rw [if_pos h1] at hm
    by_cases h3 : ((dataUriBytes c.imageUrl : ℚ) > CONSTRAINTS.spriteMaxMB * 1024 * 1024)
    · rw [if_pos h3] at hm
      rcases List.mem_singleton.mp hm with rfl
      exact not_background_of_head_ne _ _ 'C' "haracter #".data (by decide) (by decide)
    · rw [if_neg h3] at hm
      exact absurd hm (List.not_mem_nil m)
  · rw [if_neg h1] at hm
    exact absurd hm (List.not_mem_nil m)

theorem countErr_not_background (cs : List CharIn) :
    ∀ m ∈ countErr cs, jsStartsWith m "Background" = false := by
  intro m hm
  unfold countErr at hm
  by_cases h : cs.length > CONSTRAINTS.maxCharacters
  · rw [if_pos h] at hm
    rcases List.mem_singleton.mp hm with rfl
    exact not_background_of_head_ne _ _ 'T' "oo many characters: ".data (by decide) (by decide)
  · rw [if_neg h] at hm
    exact absurd hm (List.not_mem_nil m)

theorem charErrs_filter_background (cs : List CharIn) :
    ∀ n : Nat, ((mapIdxFrom charSizeErr n cs).flatten).filter
      (fun m => jsStartsWith m "Background") = [] := by
  induction cs with
  | nil => intro n; rfl
  | cons c cs ih =>
    intro n
    simp only [mapIdxFrom, List.flatten_cons, List.filter_append, ih (n + 1),
      List.append_nil]
    rw [List.filter_eq_nil_iff]
    intro m hm
    rw [charSizeErr_not_background n c m hm]
    simp

theorem countErr_filter_background (cs : List CharIn) :
    (countErr cs).filter (fun m => jsStartsWith m "Background") = [] := by
  rw [List.filter_eq_nil_iff]
  intro m hm
  rw [countErr_not_background cs m hm]
  simp

theorem validateAssets_filter_bg (bg : Option BackgroundIn) (cs : List CharIn) :
    (validateAssets ⟨bg, cs⟩).filter (fun m => jsStartsWith m "Background")
      = (bgSizeErr bg).filter (fun m => jsStartsWith m "Background") := by
  unfold validateAssets
  rw [List.filter_append, List.filter_append,
    charErrs_filter_background cs 0, countErr_filter_background cs]
  simp

theorem bgSizeErr_some (b : BackgroundIn) (u : String) (hu : b.imageUrl = some u) :
    bgSizeErr (some b)
      = if jsStartsWith u "data:" then
          (if ((dataUriBytes u : ℚ) > 1.5 * 1024 * 1024) then
            ["Background " ++ (toFixed2MB (dataUriBytes u) ++
              " MB exceeds limit 1.5 MB")]
          else [])
        else [] := by
  unfold bgSizeErr
  rw [show ((some b).bind (fun q => q.imageUrl)) = b.imageUrl from rfl, hu]
  norm_num [CONSTRAINTS]

theorem jsStartsWith_background_space (x : String) :
    jsStartsWith ("Background " ++ x) "Background" = true := by
  rw [show ("Background " ++ x) = "Background" ++ (" " ++ x) from by
    rw [← String.append_assoc,
      show ("Background" ++ " " : String) = "Background " from rfl]]
  exact jsStartsWith_self_append "Background" (" " ++ x)

theorem filter_background_singleton (s : String) :
    List.filter (fun m => jsStartsWith m "Background") ["Background " ++ s]
      = ["Background " ++ s] := by
  simp only [List.filter, jsStartsWith_background_space]

end SceneLib

/-- C7: `validateAssets` emits a background violation iff the background image
reference is an inline data URI whose estimated decoded size,
`floor(base64Length * 3 / 4)` bytes, exceeds 1.5 MB; a non-data-URI reference
never violates; and a background encoding exactly 2 MB of raw bytes (base64
payload of 2796204 characters) yields exactly one violation string, naming the
measured "2.00" MB and the "1.5 MB" limit. -/
theorem c7_validateAssets_background_rule :
    (∀ (b : SceneLib.BackgroundIn) (cs : List SceneLib.CharIn) (u : String),
      b.imageUrl = some u →
        ((SceneLib.validateAssets ⟨some b, cs⟩).filter
            (fun m => SceneLib.jsStartsWith m "Background") ≠ []
          ↔ (SceneLib.jsStartsWith u "data:" = true
              ∧ ((SceneLib.dataUriBytes u : ℚ) > 1.5 * 1024 * 1024))))
    ∧ (∀ (b : SceneLib.BackgroundIn) (cs : List SceneLib.CharIn) (u : String),
        b.imageUrl = some u → SceneLib.jsStartsWith u "data:" = false →
          (SceneLib.validateAssets ⟨some b, cs⟩).filter
            (fun m => SceneLib.jsStartsWith m "Background") = [])
    ∧ SceneLib.validateAssets ⟨some ⟨some (String.mk ("data:image/png;base64,".data ++
          List.replicate 2796204 'A')), "", none⟩, []⟩
      = ["Background 2.00 MB exceeds limit 1.5 MB"] := by
  refine ⟨?_, ?_, ?_⟩
  · intro b cs u hu
    rw [SceneLib.validateAssets_filter_bg, SceneLib.bgSizeErr_some b u hu]
    by_cases h1 : SceneLib.jsStartsWith u "data:" = true
    · rw [if_pos h1]
      by_cases h2 : ((SceneLib.dataUriBytes u : ℚ) > 1.5 * 1024 * 1024)
      · rw [if_pos h2, SceneLib.filter_background_singleton]
        exact ⟨fun _ => ⟨h1, h2⟩, fun _ => List.cons_ne_nil _ _⟩
      · rw [if_neg h2]
        simp only [List.filter_nil]
        constructor
        · intro h; exact absurd rfl h
        · rintro ⟨_, hc⟩; exact absurd hc h2
    · rw [if_neg h1]
      simp only [List.filter_nil]
      constructor
      · intro h; exact absurd rfl h
      · rintro ⟨hc, _⟩; exact absurd hc h1
  · intro b cs u hu hne
    rw [SceneLib.validateAssets_filter_bg, SceneLib.bgSizeErr_some b u hu]
    rw [if_neg (by rw [hne]; exact Bool.false_ne_true)]
    exact List.filter_nil _
  · have hbg2 : SceneLib.bgSizeErr (some ⟨some (String.mk ("data:image/png;base64,".data ++
        List.replicate 2796204 'A')), "", none⟩)
        = ["Background 2.00 MB exceeds limit 1.5 MB"] := by
      rw [SceneLib.bgSizeErr_some _ _ rfl]
      rw [if_pos SceneLib.jsStartsWith_twoMB, SceneLib.dataUriBytes_twoMB]
      rw [if_pos (by norm_num)]
      rw [show SceneLib.toFixed2MB 2097153 = "2.00" from rfl]
      rfl
    unfold SceneLib.validateAssets
    rw [hbg2]
    rfl

namespace SceneLib

theorem append_ne_empty_left (s x : String) (h : s.data ≠ []) : s ++ x ≠ "" := by
  intro he
  have hdata : (s ++ x).data = [] := by rw [he]
  rw [String.data_append] at hdata
  exact h (List.append_eq_nil.mp hdata).1

theorem toScene_fit_ne (inp : ToSceneInput) : (toScene inp).background.fit ≠ "" := by
  cases h : inp.background with
  | none =>
    simp only [toScene, h]
    decide
  | some b =>
    simp only [toScene, h]
    exact jsOrStr_ne b.fit "cover" (by decide)

theorem toChar_roundTrip (W H : ℚ) (i : Nat) (c : CharIn) :
    toChar W H i (charToIn (toChar W H i c)) = toChar W H i c := by
  unfold toChar charToIn colliderToIn
  have hid : jsOrStr (jsOrStr c.id ("char-" ++ toString (i + 1)))
      ("char-" ++ toString (i + 1)) = jsOrStr c.id ("char-" ++ toString (i + 1)) :=
    jsOrStr_of_ne _ _ (jsOrStr_ne _ _ (append_ne_empty_left "char-" _ (by decide)))
  have hname : jsOrStr (jsOrStr c.name "Hero") "Hero" = jsOrStr c.name "Hero" :=
    jsOrStr_of_ne _ _ (jsOrStr_ne _ _ (by decide))
  cases hcol : c.collider <;> cases hsh : c.abilities.shoot <;>
    simp [hcol, hsh, hid, hname, clamp_clamp]

theorem mapIdxFrom_roundTrip (W H : ℚ) :
    ∀ (n : Nat) (l : List CharIn),
      mapIdxFrom (toChar W H) n ((mapIdxFrom (toChar W H) n l).map charToIn)
        = mapIdxFrom (toChar W H) n l := by
  intro n l
  induction l generalizing n with
  | nil => rfl
  | cons c cs ih =>
    simp only [mapIdxFrom, List.map_cons]
    rw [toChar_roundTrip, ih (n + 1)]

end SceneLib

namespace SceneLib

theorem toScene_reinput_eq (inp : ToSceneInput) :
    toScene (sceneToInput (toScene inp)) = { toScene inp with targets := [] } := by
  have hplat : ∀ l : List Platform,
      l.map (fun p => ({ x := p.x, y := p.y, w := p.w, h := p.h } : Platform)) = l := by
    intro l
    have heta : (fun p : Platform =>
        ({ x := p.x, y := p.y, w := p.w, h := p.h } : Platform)) = id :=
      funext fun p => rfl
    rw [heta, List.map_id]
  have hchars : mapIdxFrom (toChar (inp.world.width.getD DEFAULTS_world.width)
        (inp.world.height.getD DEFAULTS_world.height)) 0
      (((mapIdxFrom (toChar (inp.world.width.getD DEFAULTS_world.width)
          (inp.world.height.getD DEFAULTS_world.height)) 0
        (inp.characters.take CONSTRAINTS.maxCharacters)).map
        charToIn).take CONSTRAINTS.maxCharacters)
      = mapIdxFrom (toChar (inp.world.width.getD DEFAULTS_world.width)
          (inp.world.height.getD DEFAULTS_world.height)) 0
        (inp.characters.take CONSTRAINTS.maxCharacters) := by
    rw [List.take_of_length_le]
    · exact mapIdxFrom_roundTrip _ _ 0 _
    · rw [List.length_map, length_mapIdxFrom, List.length_take]
      exact Nat.min_le_left _ _
  cases hbg : inp.background with
  | none =>
    simp [toScene, sceneToInput, hbg, clamp_clamp, hplat, hchars, jsOrStr]
  | some b =>
    have hfit : jsOrStr (jsOrStr b.fit "cover") "cover" = jsOrStr b.fit "cover" :=
      jsOrStr_of_ne _ _ (jsOrStr_ne _ _ (by decide))
    simp [toScene, sceneToInput, hbg, clamp_clamp, hplat, hchars, hfit]

end SceneLib

/-- C8 (amended): feeding the components of `toScene`'s output back into
`toScene` preserves every field except `targets`, which is reset to `[]`
(the produced Scene's background carries no `targets` payload); consequently
`toScene` is idempotent exactly on the inputs whose compiled `targets` list is
empty. -/
theorem c8_toScene_idempotent_except_targets (inp : SceneLib.ToSceneInput) :
    SceneLib.toScene (SceneLib.sceneToInput (SceneLib.toScene inp))
      = { SceneLib.toScene inp with targets := [] }
    ∧ ((SceneLib.toScene inp).targets = [] →
        SceneLib.toScene (SceneLib.sceneToInput (SceneLib.toScene inp))
          = SceneLib.toScene inp) := by
  refine ⟨SceneLib.toScene_reinput_eq inp, fun ht => ?_⟩
  rw [SceneLib.toScene_reinput_eq inp, ← ht]

/-- C8 counterexample: with a background carrying one legacy target, the
output Scene has a non-empty `targets` list, but re-feeding the Scene's own
components loses it, so `toScene` applied to its own output differs from the
output — the claim as stated is false. -/
theorem c8_counterexample :
    SceneLib.toScene (SceneLib.sceneToInput (SceneLib.toScene
      ⟨[], [], some ⟨none, "", some [⟨1, 2, 3, 4, "coin"⟩]⟩, ⟨none, none, none⟩, none⟩))
      ≠ SceneLib.toScene
      ⟨[], [], some ⟨none, "", some [⟨1, 2, 3, 4, "coin"⟩]⟩, ⟨none, none, none⟩, none⟩ := by
  decide

/-- C8 witness: on an input with no background targets, re-application is the
identity. -/
theorem c8_witness :
    SceneLib.toScene (SceneLib.sceneToInput (SceneLib.toScene
      ⟨[], [], none, ⟨none, none, none⟩, none⟩))
      = SceneLib.toScene ⟨[], [], none, ⟨none, none, none⟩, none⟩ :=
  (c8_toScene_idempotent_except_targets _).2 rfl

/-- C7 witness: the background-violation criterion instantiated at the 2 MB
inline background. -/
theorem c7_witness :
    (SceneLib.validateAssets ⟨some ⟨some (String.mk ("data:image/png;base64,".data ++
        List.replicate 2796204 'A')), "", none⟩, []⟩).filter
      (fun m => SceneLib.jsStartsWith m "Background") ≠ [] :=
  (c7_validateAssets_background_rule.1 _ [] _ rfl).mpr
    ⟨SceneLib.jsStartsWith_twoMB, by rw [SceneLib.dataUriBytes_twoMB]; norm_num⟩

namespace CharacterExtraction

theorem foldl_min_le_init {α : Type} (f : α → Int) :
    ∀ (l : List α) (a : Int), l.foldl (fun m p => min m (f p)) a ≤ a := by
  intro l
  induction l with
  | nil => intro a; exact le_refl a
  | cons x xs ih =>
    intro a
    exact (ih (min a (f x))).trans (min_le_left _ _)

theorem foldl_min_le_mem {α : Type} (f : α → Int) :
    ∀ (l : List α) (a : Int) (p : α), p ∈ l →
      l.foldl (fun m q => min m (f q)) a ≤ f p := by
  intro l
  induction l with
  | nil => intro a p hp; simp at hp
  | cons x xs ih =>
    intro a p hp
    rcases List.mem_cons.mp hp with rfl | hp2
    · exact (foldl_min_le_init f xs _).trans (min_le_right _ _)
    · exact ih _ p hp2

theorem foldl_min_attained {α : Type} (f : α → Int) :
    ∀ (l : List α) (a : Int),
      l.foldl (fun m q => min m (f q)) a = a
        ∨ ∃ p ∈ l, l.foldl (fun m q => min m (f q)) a = f p := by
  intro l
  induction l with
  | nil => intro a; exact Or.inl rfl
  | cons x xs ih =>
    intro a
    simp only [List.foldl_cons]
    rcases ih (min a (f x)) with h | ⟨p, hp, he⟩
    · rcases min_choice a (f x) with hmin | hmin
      · exact Or.inl (by rw [h, hmin])
      · exact Or.inr ⟨x, List.mem_cons_self _ _, by rw [h, hmin]⟩
    · exact Or.inr ⟨p, List.mem_cons_of_mem _ hp, he⟩

theorem init_le_foldl_max {α : Type} (f : α → Int) :
    ∀ (l : List α) (a : Int), a ≤ l.foldl (fun m p => max m (f p)) a := by
  intro l
  induction l with
  | nil => intro a; exact le_refl a
  | cons x xs ih =>
    intro a
    exact (le_max_left a (f x)).trans (ih (max a (f x)))

theorem mem_le_foldl_max {α : Type} (f : α → Int) :
    ∀ (l : List α) (a : Int) (p : α), p ∈ l →
      f p ≤ l.foldl (fun m q => max m (f q)) a := by
  intro l
  induction l with
  | nil => intro a p hp; simp at hp
  | cons x xs ih =>
    intro a p hp
    rcases List.mem_cons.mp hp with rfl | hp2
    · exact (le_max_right a (f p)).trans (init_le_foldl_max f xs _)
    · exact ih _ p hp2

theorem foldl_max_attained {α : Type} (f : α → Int) :
    ∀ (l : List α) (a : Int),
      l.foldl (fun m q => max m (f q)) a = a
        ∨ ∃ p ∈ l, l.foldl (fun m q => max m (f q)) a = f p := by
  intro l
  induction l with
  | nil => intro a; exact Or.inl rfl
  | cons x xs ih =>
    intro a
    simp only [List.foldl_cons]
    rcases ih (max a (f x)) with h | ⟨p, hp, he⟩
    · rcases max_choice a (f x) with hmax | hmax
      · exact Or.inl (by rw [h, hmax])
      · exact Or.inr ⟨x, List.mem_cons_self _ _, by rw [h, hmax]⟩
    · exact Or.inr ⟨p, List.mem_cons_of_mem _ hp, he⟩

theorem mem_pixels (r : Raster) (x y : Nat) (hx : x < r.width) (hy : y < r.height) :
    (x, y) ∈ pixels r := by
  unfold pixels
  rw [List.mem_flatMap]
  exact ⟨y, List.mem_range.mpr hy, List.mem_map.mpr ⟨x, List.mem_range.mpr hx, rfl⟩⟩

theorem mem_alphaPixels (r : Raster) (x y : Nat) :
    (x, y) ∈ alphaPixels r
      ↔ x < r.width ∧ y < r.height ∧ 0 < alphaAt r (x, y) := by
  unfold alphaPixels
  rw [List.mem_filter]
  constructor
  · rintro ⟨hp, hdec⟩
    have halpha : 0 < alphaAt r (x, y) := by
      simpa using hdec
    unfold pixels at hp
    rw [List.mem_flatMap] at hp
    rcases hp with ⟨y1, hy1, hmap⟩
    rcases List.mem_map.mp hmap with ⟨x1, hx1, heq⟩
    have hxe : x1 = x := congrArg Prod.fst heq
    have hye : y1 = y := congrArg Prod.snd heq
    subst hxe
    subst hye
    exact ⟨List.mem_range.mp hx1, List.mem_range.mp hy1, halpha⟩
  · rintro ⟨hx, hy, ha⟩
    exact ⟨mem_pixels r x y hx hy, by simpa using ha⟩

end CharacterExtraction

/-- C9: for every sprite raster with at least one pixel of non-zero alpha, the
computed collider is the tight bounding box of those pixels padded by 2px on
each side with minimum width 16 and height 24, and the offsets centre it:
`offsetX = max 0 (floor((width - colliderWidth) / 2))`, likewise for Y. -/
theorem c9_collider_tight_bbox (r : CharacterExtraction.Raster) (x0 y0 : Nat)
    (hx : x0 < r.width) (hy : y0 < r.height)
    (ha : 0 < CharacterExtraction.alphaAt r (x0, y0)) :
    ∃ mnX mxX mnY mxY : Int,
      (∀ x y : Nat, x < r.width → y < r.height →
        0 < CharacterExtraction.alphaAt r (x, y) →
          mnX ≤ (x : Int) ∧ (x : Int) ≤ mxX ∧ mnY ≤ (y : Int) ∧ (y : Int) ≤ mxY)
      ∧ (∃ x y : Nat, x < r.width ∧ y < r.height
          ∧ 0 < CharacterExtraction.alphaAt r (x, y) ∧ (x : Int) = mnX)
      ∧ (∃ x y : Nat, x < r.width ∧ y < r.height
          ∧ 0 < CharacterExtraction.alphaAt r (x, y) ∧ (x : Int) = mxX)
      ∧ (∃ x y : Nat, x < r.width ∧ y < r.height
          ∧ 0 < CharacterExtraction.alphaAt r (x, y) ∧ (y : Int) = mnY)
      ∧ (∃ x y : Nat, x < r.width ∧ y < r.height
          ∧ 0 < CharacterExtraction.alphaAt r (x, y) ∧ (y : Int) = mxY)
      ∧ (CharacterExtraction.calculateColliderBounds r).w = max 16 (mxX - mnX + 1 + 2 * 2)
      ∧ (CharacterExtraction.calculateColliderBounds r).h = max 24 (mxY - mnY + 1 + 2 * 2)
      ∧ 16 ≤ (CharacterExtraction.calculateColliderBounds r).w
      ∧ 24 ≤ (CharacterExtraction.calculateColliderBounds r).h
      ∧ (CharacterExtraction.calculateColliderBounds r).offsetX
          = max 0 (((r.width : Int)
              - (CharacterExtraction.calculateColliderBounds r).w).fdiv 2)
      ∧ (CharacterExtraction.calculateColliderBounds r).offsetY
          = max 0 (((r.height : Int)
              - (CharacterExtraction.calculateColliderBounds r).h).fdiv 2) := by
  have hmem : (x0, y0) ∈ CharacterExtraction.alphaPixels r :=
    (CharacterExtraction.mem_alphaPixels r x0 y0).mpr ⟨hx, hy, ha⟩
  have hne : CharacterExtraction.alphaPixels r ≠ [] := List.ne_nil_of_mem hmem
  have hcb : CharacterExtraction.calculateColliderBounds r
      = { w := max 16 ((CharacterExtraction.alphaPixels r).foldl
              (fun m p => max m (p.1 : Int)) 0
            - (CharacterExtraction.alphaPixels r).foldl
              (fun m p => min m (p.1 : Int)) (r.width : Int) + 1 + 2 * 2)
          h := max 24 ((CharacterExtraction.alphaPixels r).foldl
              (fun m p => max m (p.2 : Int)) 0
            - (CharacterExtraction.alphaPixels r).foldl
              (fun m p => min m (p.2 : Int)) (r.height : Int) + 1 + 2 * 2)
          offsetX := max 0 (((r.width : Int)
            - max 16 ((CharacterExtraction.alphaPixels r).foldl
                (fun m p => max m (p.1 : Int)) 0
              - (CharacterExtraction.alphaPixels r).foldl
                (fun m p => min m (p.1 : Int)) (r.width : Int) + 1 + 2 * 2)).fdiv 2)
          offsetY := max 0 (((r.height : Int)
            - max 24 ((CharacterExtraction.alphaPixels r).foldl
                (fun m p => max m (p.2 : Int)) 0
              - (CharacterExtraction.alphaPixels r).foldl
                (fun m p => min m (p.2 : Int)) (r.height : Int) + 1 + 2 * 2)).fdiv 2) } := by
    simp only [CharacterExtraction.calculateColliderBounds]
    rw [if_neg hne]
  refine ⟨(CharacterExtraction.alphaPixels r).foldl
      (fun m p => min m (p.1 : Int)) (r.width : Int),
    (CharacterExtraction.alphaPixels r).foldl (fun m p => max m (p.1 : Int)) 0,
    (CharacterExtraction.alphaPixels r).foldl
      (fun m p => min m (p.2 : Int)) (r.height : Int),
    (CharacterExtraction.alphaPixels r).foldl (fun m p => max m (p.2 : Int)) 0,
    ?_, ?_, ?_, ?_, ?_, ?_, ?_, ?_, ?_, ?_, ?_⟩
  · intro x y hxw hyh hal
    have hm : (x, y) ∈ CharacterExtraction.alphaPixels r :=
      (CharacterExtraction.mem_alphaPixels r x y).mpr ⟨hxw, hyh, hal⟩
    exact ⟨CharacterExtraction.foldl_min_le_mem (fun p => (p.1 : Int)) _ _ _ hm,
      CharacterExtraction.mem_le_foldl_max (fun p => (p.1 : Int)) _ _ _ hm,
      CharacterExtraction.foldl_min_le_mem (fun p => (p.2 : Int)) _ _ _ hm,
      CharacterExtraction.mem_le_foldl_max (fun p => (p.2 : Int)) _ _ _ hm⟩
  · rcases CharacterExtraction.foldl_min_attained (fun p => (p.1 : Int))
      (CharacterExtraction.alphaPixels r) (r.width : Int) with hinit | ⟨p, hp, he⟩
    · have hle : (CharacterExtraction.alphaPixels r).foldl
          (fun m p => min m (p.1 : Int)) (r.width : Int) ≤ (x0 : Int) :=
        CharacterExtraction.foldl_min_le_mem (fun p => (p.1 : Int)) _ _ _ hmem
      rw [hinit] at hle
      exact absurd hle (not_le.mpr (by exact_mod_cast hx))
    · obtain ⟨px, py⟩ := p
      rcases (CharacterExtraction.mem_alphaPixels r px py).mp hp with ⟨h1, h2, h3⟩
      exact ⟨px, py, h1, h2, h3, he.symm⟩
  · rcases CharacterExtraction.foldl_max_attained (fun p => (p.1 : Int))
      (CharacterExtraction.alphaPixels r) 0 with hinit | ⟨p, hp, he⟩
    · have hle : (x0 : Int) ≤ (CharacterExtraction.alphaPixels r).foldl
          (fun m p => max m (p.1 : Int)) 0 :=
        CharacterExtraction.mem_le_foldl_max (fun p => (p.1 : Int)) _ _ _ hmem
      refine ⟨x0, y0, hx, hy, ha, ?_⟩
      rw [hinit] at hle ⊢
      omega
    · obtain ⟨px, py⟩ := p
      rcases (CharacterExtraction.mem_alphaPixels r px py).mp hp with ⟨h1, h2, h3⟩
      exact ⟨px, py, h1, h2, h3, he.symm⟩
  · rcases CharacterExtraction.foldl_min_attained (fun p => (p.2 : Int))
      (CharacterExtraction.alphaPixels r) (r.height : Int) with hinit | ⟨p, hp, he⟩
    · have hle : (CharacterExtraction.alphaPixels r).foldl
          (fun m p => min m (p.2 : Int)) (r.height : Int) ≤ (y0 : Int) :=
        CharacterExtraction.foldl_min_le_mem (fun p => (p.2 : Int)) _ _ _ hmem
      rw [hinit] at hle
      exact absurd hle (not_le.mpr (by exact_mod_cast hy))
    · obtain ⟨px, py⟩ := p
      rcases (CharacterExtraction.mem_alphaPixels r px py).mp hp with ⟨h1, h2, h3⟩
      exact ⟨px, py, h1, h2, h3, he.symm⟩
  · rcases CharacterExtraction.foldl_max_attained (fun p => (p.2 : Int))
      (CharacterExtraction.alphaPixels r) 0 with hinit | ⟨p, hp, he⟩
    · have hle : (y0 : Int) ≤ (CharacterExtraction.alphaPixels r).foldl
          (fun m p => max m (p.2 : Int)) 0 :=
        CharacterExtraction.mem_le_foldl_max (fun p => (p.2 : Int)) _ _ _ hmem
      refine ⟨x0, y0, hx, hy, ha, ?_⟩
      rw [hinit] at hle ⊢
      omega
    · obtain ⟨px, py⟩ := p
      rcases (CharacterExtraction.mem_alphaPixels r px py).mp hp with ⟨h1, h2, h3⟩
      exact ⟨px, py, h1, h2, h3, he.symm⟩
  · rw [hcb]
  · rw [hcb]
  · rw [hcb]
    exact le_max_left _ _
  · rw [hcb]
    exact le_max_left _ _
  · rw [hcb]
  · rw [hcb]

/-- C9 witness: a 64×64 sprite with a single opaque pixel at (10,10). -/
theorem c9_witness :
    ∃ mnX mxX mnY mxY : Int,
      (∀ x y : Nat, x < 64 → y < 64 →
        0 < CharacterExtraction.alphaAt ⟨64, 64, fun i => if i = 2603 then 255 else 0⟩ (x, y) →
          mnX ≤ (x : Int) ∧ (x : Int) ≤ mxX ∧ mnY ≤ (y : Int) ∧ (y : Int) ≤ mxY)
      ∧ (∃ x y : Nat, x < 64 ∧ y < 64
          ∧ 0 < CharacterExtraction.alphaAt
              ⟨64, 64, fun i => if i = 2603 then 255 else 0⟩ (x, y) ∧ (x : Int) = mnX)
      ∧ (∃ x y : Nat, x < 64 ∧ y < 64
          ∧ 0 < CharacterExtraction.alphaAt
              ⟨64, 64, fun i => if i = 2603 then 255 else 0⟩ (x, y) ∧ (x : Int) = mxX)
      ∧ (∃ x y : Nat, x < 64 ∧ y < 64
          ∧ 0 < CharacterExtraction.alphaAt
              ⟨64, 64, fun i => if i = 2603 then 255 else 0⟩ (x, y) ∧ (y : Int) = mnY)
      ∧ (∃ x y : Nat, x < 64 ∧ y < 64
          ∧ 0 < CharacterExtraction.alphaAt
              ⟨64, 64, fun i => if i = 2603 then 255 else 0⟩ (x, y) ∧ (y : Int) = mxY)
      ∧ (CharacterExtraction.calculateColliderBounds
          ⟨64, 64, fun i => if i = 2603 then 255 else 0⟩).w = max 16 (mxX - mnX + 1 + 2 * 2)
      ∧ (CharacterExtraction.calculateColliderBounds
          ⟨64, 64, fun i => if i = 2603 then 255 else 0⟩).h = max 24 (mxY - mnY + 1 + 2 * 2)
      ∧ 16 ≤ (CharacterExtraction.calculateColliderBounds
          ⟨64, 64, fun i => if i = 2603 then 255 else 0⟩).w
      ∧ 24 ≤ (CharacterExtraction.calculateColliderBounds
          ⟨64, 64, fun i => if i = 2603 then 255 else 0⟩).h
      ∧ (CharacterExtraction.calculateColliderBounds
          ⟨64, 64, fun i => if i = 2603 then 255 else 0⟩).offsetX
          = max 0 (((64 : Int) - (CharacterExtraction.calculateColliderBounds
              ⟨64, 64, fun i => if i = 2603 then 255 else 0⟩).w).fdiv 2)
      ∧ (CharacterExtraction.calculateColliderBounds
          ⟨64, 64, fun i => if i = 2603 then 255 else 0⟩).offsetY
          = max 0 (((64 : Int) - (CharacterExtraction.calculateColliderBounds
              ⟨64, 64, fun i => if i = 2603 then 255 else 0⟩).h).fdiv 2) :=
  c9_collider_tight_bbox ⟨64, 64, fun i => if i = 2603 then 255 else 0⟩ 10 10
    (by norm_num) (by norm_num) (by decide)
